import Mathlib

/-
  Verification of the audio `Module` port/patch/stream configuration manager
  (`src/audio/aidl/default/Module.cpp`) against its natural-language
  specification.  The data model and the operations are shallowly embedded:
  the AIDL parcelables become Lean structures, the mutable `Module` object
  becomes an explicit `ModuleState` threaded through the operations, and each
  binder call returns a typed result together with the successor state.
-/

deriving instance DecidableEq for Except

namespace AudioCore

/-! ## Data model

  Lean renderings of the AIDL parcelable types used by `Module.cpp`.
  `int32_t` values are modelled as `Int` (no arithmetic in the translated
  code can overflow 32 bits on the inputs treated here); bit fields that the
  code feeds to `__builtin_popcount` are reduced modulo `2^32` exactly where
  the C++ performs the signed-to-unsigned conversion. -/

/-- PcmType from the AIDL definition, in declaration order. -/
inductive PcmType where
  | UINT_8_BIT
  | INT_16_BIT
  | INT_32_BIT
  | FIXED_Q_8_24
  | FLOAT_32_BIT
  | INT_24_BIT
  deriving DecidableEq, Repr, Inhabited

/-- AudioFormatType from the AIDL definition. -/
inductive AudioFormatType where
  | sysReservedInvalid
  | defaultType
  | nonPcm
  | pcm
  deriving DecidableEq, Repr, Inhabited

/-- AudioFormatDescription: a format tag plus, for PCM, the sample subtype.
    The free-form `encoding` string is carried because whole-structure
    equality is used by `findAudioProfile`. -/
structure AudioFormatDescription where
  type : AudioFormatType := .defaultType
  pcm : PcmType := .UINT_8_BIT
  encoding : String := ""
  deriving DecidableEq, Repr, Inhabited

/-- AudioChannelLayout: an AIDL union; the three mask alternatives carry an
    `int32_t` bit field. -/
inductive AudioChannelLayout where
  | none
  | invalid
  | indexMask (bits : Int)
  | layoutMask (bits : Int)
  | voiceMask (bits : Int)
  deriving DecidableEq, Repr, Inhabited

/-- AudioProfile: one supported format together with the channel masks and
    sample rates usable with it. -/
structure AudioProfile where
  format : AudioFormatDescription := {}
  channelMasks : List AudioChannelLayout := []
  sampleRates : List Int := []
  deriving DecidableEq, Repr, Inhabited

/-- AudioIoFlags: an AIDL union of input flags or output flags; the payload
    is an `int32_t` bit field (non-negative in practice, modelled as `Nat`
    because the code only tests individual bits). -/
inductive AudioIoFlags where
  | input (bits : Nat)
  | output (bits : Nat)
  deriving DecidableEq, Repr, Inhabited

/-- AudioDeviceDescription: device kind (enum, as `Int`) and the connection
    type string; an empty connection string means permanently attached. -/
structure AudioDeviceDescription where
  type : Int := 0
  connection : String := ""
  deriving DecidableEq, Repr, Inhabited

/-- AudioDevice: device identity (description plus address).  The address
    union is modelled by its string rendering; the code only copies and
    compares it. -/
structure AudioDevice where
  type : AudioDeviceDescription := {}
  address : String := ""
  deriving DecidableEq, Repr, Inhabited

/-- AudioPortDeviceExt: payload of a device port. -/
structure AudioPortDeviceExt where
  device : AudioDevice := {}
  deriving DecidableEq, Repr, Inhabited

/-- AudioPortMixExt: payload of a mix port. -/
structure AudioPortMixExt where
  maxOpenStreamCount : Int := 0
  deriving DecidableEq, Repr, Inhabited

/-- AudioPortExt: the tagged union distinguishing mix ports from device
    ports (`unspecified` is the default tag). -/
inductive AudioPortExt where
  | unspecified
  | device (d : AudioPortDeviceExt)
  | mix (m : AudioPortMixExt)
  deriving DecidableEq, Repr, Inhabited

/-- AudioPort.  `extraAudioDescriptors` is never inspected by the translated
    code (only copied wholesale), so its elements are modelled as `Int`. -/
structure AudioPort where
  id : Int := 0
  profiles : List AudioProfile := []
  flags : AudioIoFlags := .input 0
  extraAudioDescriptors : List Int := []
  ext : AudioPortExt := .unspecified
  deriving DecidableEq, Repr, Inhabited

/-- AudioPortConfig.  `sampleRate` stands for the AIDL `Int` wrapper's
    `value` field; `gain` is an AudioGainConfig that the code copies but
    never inspects, modelled as `Int`. -/
structure AudioPortConfig where
  id : Int := 0
  portId : Int := 0
  sampleRate : Option Int := Option.none
  channelMask : Option AudioChannelLayout := Option.none
  format : Option AudioFormatDescription := Option.none
  gain : Option Int := Option.none
  flags : Option AudioIoFlags := Option.none
  ext : AudioPortExt := .unspecified
  deriving DecidableEq, Repr, Inhabited

/-- AudioRoute: the set of source port ids that may feed one sink port. -/
structure AudioRoute where
  sourcePortIds : List Int := []
  sinkPortId : Int := 0
  isExclusive : Bool := false
  deriving DecidableEq, Repr, Inhabited

/-- AudioPatch: a live connection between source and sink port configs. -/
structure AudioPatch where
  id : Int := 0
  sourcePortConfigIds : List Int := []
  sinkPortConfigIds : List Int := []
  minimumStreamBufferSizeFrames : Int := 0
  latenciesMs : List Int := []
  deriving DecidableEq, Repr, Inhabited

/-- Modelled from the spec: the `internal::Configuration` store
    (`core-impl/Configuration.h`, not under `src/`), holding "the full set of
    ports, port-configs, patches, routes, and id counters" plus the
    initial-configs snapshot and the per-template connected profiles. -/
structure Configuration where
  ports : List AudioPort := []
  portConfigs : List AudioPortConfig := []
  initialConfigs : List AudioPortConfig := []
  routes : List AudioRoute := []
  patches : List AudioPatch := []
  nextPortId : Int := 1
  nextPatchId : Int := 1
  connectedProfiles : List (Int × List AudioProfile) := []
  deriving DecidableEq, Repr, Inhabited

/-- ModuleDebug: only the device-connection simulation flag is consulted by
    the translated code. -/
structure ModuleDebug where
  simulateDeviceConnections : Bool := false
  deriving DecidableEq, Repr, Inhabited

/-- Mutable state of one `Module` instance: the configuration store, the
    patch-usage reverse index `mPatches` (a multimap modelled as a list of
    key-value pairs mapping a port-config id or port id to a patch id), the
    connected-device-port set, and the stream registry.  The stream registry
    (`Streams`, declared in `core-impl/Module.h`, not under `src/`) is
    modelled from the spec as a list of (owning port id, port-config id)
    pairs for the currently opened streams. -/
structure ModuleState where
  config : Configuration := {}
  mPatches : List (Int × Int) := []
  mConnectedDevicePorts : List Int := []
  mStreams : List (Int × Int) := []
  mDebug : ModuleDebug := {}
  deriving DecidableEq, Repr, Inhabited

/-- Modelled from the spec: the configured constants of `Module`
    (`kMinimumStreamBufferSizeFrames`, `kMaximumStreamBufferSizeBytes`,
    `kLatencyMs` from `core-impl/Module.h`, not under `src/`); the spec calls
    them "a configured minimum-frames threshold", "a configured maximum byte
    ceiling" and "one fixed per-sink latency value". -/
structure ModuleConstants where
  kMinimumStreamBufferSizeFrames : Int := 16
  kMaximumStreamBufferSizeBytes : Nat := 1024
  kLatencyMs : Int := 10
  deriving DecidableEq, Repr, Inhabited

/-- Binder exception codes used by the translated code. -/
inductive ExCode where
  | illegalArgument
  | illegalState
  deriving DecidableEq, Repr, Inhabited

/-! ## Generic helpers

  The C++ uses small templated helpers from `core-impl/utils.h`, which is not
  under `src/`; each is modelled here from the spec's description of its use
  and kept as close as possible to the obvious `std` semantics. -/

/-- Modelled from the spec: `findById` from `core-impl/utils.h` — the first
    element of the list whose id (extracted by `getId`) equals `i`. -/
def findById {α : Type} (getId : α → Int) : List α → Int → Option α
  | [], _ => Option.none
  | x :: xs, i => if getId x = i then some x else findById getId xs i

/-- Modelled from the spec: `erase_all_values` from `core-impl/utils.h` —
    removes every map entry whose mapped value belongs to `vals`. -/
def erase_all_values (m : List (Int × Int)) (vals : List Int) : List (Int × Int) :=
  m.filter fun kv => decide (kv.2 ∉ vals)

/-- Modelled from the spec: `all_unique` from `core-impl/utils.h` — whether a
    list of ids is duplicate-free. -/
def all_unique (xs : List Int) : Bool :=
  decide xs.Nodup

/-- Modelled from the spec: `selectByIds` from `core-impl/utils.h` — resolves
    each id in order, returning the found elements in order and, separately,
    the list of all ids that did not resolve ("collect all missing ids"). -/
def selectByIds (configs : List AudioPortConfig) : List Int → List AudioPortConfig × List Int
  | [] => ([], [])
  | i :: is =>
    let rest := selectByIds configs is
    match findById (·.id) configs i with
    | some c => (c :: rest.1, rest.2)
    | Option.none => (rest.1, i :: rest.2)

/-- Replaces the first element whose id equals `i` by `y` (the effect of
    writing through an iterator obtained from `findById`). -/
def replaceFirstById {α : Type} (getId : α → Int) : List α → Int → α → List α
  | [], _, _ => []
  | x :: xs, i, y => if getId x = i then y :: xs else x :: replaceFirstById getId xs i y

/-- Removes the first element whose id equals `i` (the effect of
    `container.erase(it)` for an iterator found by id). -/
def eraseFirstById {α : Type} (getId : α → Int) : List α → Int → List α
  | [], _ => []
  | x :: xs, i => if getId x = i then xs else x :: eraseFirstById getId xs i

/-! ## Frame-size computation (`Module.cpp` lines 75-116) -/

/-- Iterated popcount with explicit fuel; 32 steps suffice for any value
    below `2^32`. -/
def popCountAux : Nat → Nat → Nat
  | 0, _ => 0
  | fuel + 1, n => if n = 0 then 0 else n % 2 + popCountAux fuel (n / 2)

/-- Population count of the low 32 bits, matching `__builtin_popcount`
    applied to an `int32_t` implicitly converted to `unsigned int`. -/
def popCount32 (bits : Int) : Nat :=
  popCountAux 32 (bits.emod 4294967296).toNat

/-- Translation of `getPcmSampleSizeInBytes` (`Module.cpp` lines 75-91). -/
def getPcmSampleSizeInBytes (pcm : PcmType) : Nat :=
  match pcm with
  | .UINT_8_BIT => 1
  | .INT_16_BIT => 2
  | .INT_32_BIT => 4
  | .FIXED_Q_8_24 => 4
  | .FLOAT_32_BIT => 4
  | .INT_24_BIT => 3

/-- Translation of `getChannelCount` (`Module.cpp` lines 93-108). -/
def getChannelCount (layout : AudioChannelLayout) : Nat :=
  match layout with
  | .none => 0
  | .invalid => 0
  | .indexMask bits => popCount32 bits
  | .layoutMask bits => popCount32 bits
  | .voiceMask bits => popCount32 bits

/-- Translation of `getFrameSizeInBytes` (`Module.cpp` lines 110-116). -/
def getFrameSizeInBytes (format : AudioFormatDescription)
    (layout : AudioChannelLayout) : Nat :=
  if format.type = AudioFormatType.pcm then
    getPcmSampleSizeInBytes format.pcm * getChannelCount layout
  else
    1

/-- Stated from the claim's words (C7), for comparison with the translated
    `getFrameSizeInBytes`: for PCM formats, the PCM subtype's byte size
    (UINT_8_BIT to 1, INT_16_BIT to 2, INT_24_BIT to 3, and
    INT_32_BIT, FIXED_Q_8_24, FLOAT_32_BIT to 4) multiplied by the popcount
    of the tagged mask bit field, a none- or invalid-tagged layout
    contributing 0 channels; for every non-PCM format, exactly 1. -/
def claimFrameSize (format : AudioFormatDescription)
    (layout : AudioChannelLayout) : Nat :=
  if format.type = AudioFormatType.pcm then
    (match format.pcm with
     | .UINT_8_BIT => 1
     | .INT_16_BIT => 2
     | .INT_24_BIT => 3
     | .INT_32_BIT => 4
     | .FIXED_Q_8_24 => 4
     | .FLOAT_32_BIT => 4) *
    (match layout with
     | .none => 0
     | .invalid => 0
     | .indexMask bits => popCount32 bits
     | .layoutMask bits => popCount32 bits
     | .voiceMask bits => popCount32 bits)
  else
    1

/-- C7: `getFrameSizeInBytes` agrees everywhere with the claim's description,
    and in particular: PCM INT_16_BIT with a two-channel layout gives frame
    size 4, a non-PCM format gives 1 regardless of layout, and PCM with a
    none- or invalid-tagged layout gives 0. -/
theorem getFrameSizeInBytes_matches_claim :
    (∀ (format : AudioFormatDescription) (layout : AudioChannelLayout),
      getFrameSizeInBytes format layout = claimFrameSize format layout) ∧
    getFrameSizeInBytes { type := .pcm, pcm := .INT_16_BIT }
      (.layoutMask 3) = 4 ∧
    (∀ (layout : AudioChannelLayout),
      getFrameSizeInBytes { type := .nonPcm, pcm := .UINT_8_BIT } layout = 1) ∧
    (∀ (pcm : PcmType),
      getFrameSizeInBytes { type := .pcm, pcm := pcm } .none = 0 ∧
      getFrameSizeInBytes { type := .pcm, pcm := pcm } .invalid = 0) := by
  refine ⟨?_, by decide, ?_, ?_⟩
  · intro format layout
    cases format with
    | mk ty pcm enc =>
      cases ty <;> cases pcm <;> cases layout <;>
        simp [getFrameSizeInBytes, claimFrameSize, getPcmSampleSizeInBytes,
          getChannelCount]
  · intro layout
    simp [getFrameSizeInBytes, claimFrameSize]
  · intro pcm
    cases pcm <;> simp [getFrameSizeInBytes, getChannelCount]

/-! ## Patch bookkeeping (`Module.cpp` lines 132-158 and 239-254) -/

/-- Translation of `Module::cleanUpPatch` (`Module.cpp` lines 132-134):
    removes every reverse-index entry whose mapped patch id is `patchId`. -/
def cleanUpPatch (mP : List (Int × Int)) (patchId : Int) : List (Int × Int) :=
  erase_all_values mP [patchId]

/-- Reverse-index entries that `Module::registerPatch` (`Module.cpp` lines
    239-254) inserts for one patch: for each source and sink port-config id
    that resolves in the config list, the id itself and, when different, the
    owning port id, each mapped to the patch id. -/
def patchIndexEntries (configs : List AudioPortConfig) (patch : AudioPatch) :
    List (Int × Int) :=
  (patch.sourcePortConfigIds ++ patch.sinkPortConfigIds).flatMap fun portConfigId =>
    match findById (·.id) configs portConfigId with
    | some cfg =>
      (portConfigId, patch.id) ::
        (if cfg.portId ≠ portConfigId then [(cfg.portId, patch.id)] else [])
    | Option.none => []

/-- Translation of `Module::registerPatch`: appends the patch's index entries
    to the reverse index. -/
def registerPatch (configs : List AudioPortConfig) (mP : List (Int × Int))
    (patch : AudioPatch) : List (Int × Int) :=
  mP ++ patchIndexEntries configs patch

/-- Strips `portConfigId` from both id lists of the first patch with id
    `patchId`, as the range loop of `cleanUpPatches` does through the
    iterator returned by `findById`. -/
def stripPortConfigId (patches : List AudioPatch) (patchId portConfigId : Int) :
    List AudioPatch :=
  match findById (·.id) patches patchId with
  | some p =>
    replaceFirstById (·.id) patches patchId
      { p with
        sourcePortConfigIds := p.sourcePortConfigIds.filter fun e => decide (e ≠ portConfigId)
        sinkPortConfigIds := p.sinkPortConfigIds.filter fun e => decide (e ≠ portConfigId) }
  | Option.none => patches

/-- Translation of `Module::cleanUpPatches` (`Module.cpp` lines 136-158).
    First phase: for every reverse-index entry keyed by `portConfigId`, strip
    that id out of the referenced patch's source and sink lists.  Second
    phase: the C++ loop `for (size_t i = patches.size() - 1; i != 0; --i)`
    visits positions from the back down to position 1 — position 0 is never
    visited — erasing each visited patch whose source or sink list is empty;
    we render it as keeping the head and filtering the tail.  Finally the
    erased patches' reverse-index entries are dropped. -/
def cleanUpPatches (s : ModuleState) (portConfigId : Int) : ModuleState :=
  if s.config.patches.length = 0 then s
  else
    let range := s.mPatches.filter fun kv => decide (kv.1 = portConfigId)
    let stripped := range.foldl
      (fun ps kv => stripPortConfigId ps kv.2 portConfigId) s.config.patches
    match stripped with
    | [] => { s with config := { s.config with patches := [] } }
    | p0 :: rest =>
      let keep := rest.filter fun p =>
        !(p.sourcePortConfigIds.isEmpty || p.sinkPortConfigIds.isEmpty)
      let erased := (rest.filter fun p =>
        p.sourcePortConfigIds.isEmpty || p.sinkPortConfigIds.isEmpty).map (·.id)
      { s with
        config := { s.config with patches := p0 :: keep }
        mPatches := erase_all_values s.mPatches erased }

/-- Translation of `Module::resetAudioPatch` (`Module.cpp` lines 736-747):
    the patch must exist; its reverse-index entries are removed and it is
    erased from the patch list. -/
def resetAudioPatch (s : ModuleState) (patchId : Int) :
    Except ExCode Unit × ModuleState :=
  match findById (·.id) s.config.patches patchId with
  | some p =>
    (Except.ok (),
      { s with
        mPatches := cleanUpPatch s.mPatches p.id
        config := { s.config with
          patches := eraseFirstById (·.id) s.config.patches patchId } })
  | Option.none => (Except.error .illegalArgument, s)

/-! ## Stream descriptor and port resolution (`Module.cpp` lines 160-230) -/

/-- Frame size of a port config, as computed at `Module.cpp` line 176:
    `getFrameSizeInBytes(portConfigIt->format.value(),
    portConfigIt->channelMask.value())`; the `.value()` accesses assume the
    fields are set (value-initialized defaults stand in otherwise). -/
def configFrameSize (cfg : AudioPortConfig) : Nat :=
  getFrameSizeInBytes (cfg.format.getD {}) (cfg.channelMask.getD .none)

/-- Translation of `Module::createStreamDescriptor` (`Module.cpp` lines
    160-192), taking the already-resolved port config (the C++ comments that
    validity of the port-config id has been checked by the caller). -/
def createStreamDescriptor (k : ModuleConstants) (cfg : AudioPortConfig)
    (bufferSizeFrames : Int) : Except ExCode Unit :=
  if bufferSizeFrames ≤ 0 then Except.error .illegalArgument
  else if bufferSizeFrames < k.kMinimumStreamBufferSizeFrames then
    Except.error .illegalArgument
  else
    let frameSize := configFrameSize cfg
    if frameSize = 0 then Except.error .illegalArgument
    else if frameSize > k.kMaximumStreamBufferSizeBytes / bufferSizeFrames.toNat then
      Except.error .illegalArgument
    else Except.ok ()

/-- Number of stream-registry entries matching an id, as `mStreams.count`:
    the registry is keyed both by port-config id and by owning port id
    (modelled from the spec's Stream registry description). -/
def countStreams (s : ModuleState) (i : Int) : Nat :=
  (s.mStreams.filter fun kv => decide (kv.1 = i) || decide (kv.2 = i)).length

/-- Outcome of `Module::findPortIdForNewStream`: the resolved port, a typed
    binder error, or `abortCheck` for the failed `CHECK` at `Module.cpp` line
    203, which kills the process instead of returning an error. -/
inductive FindPortResult where
  | found (port : AudioPort)
  | err (e : ExCode)
  | abortCheck
  deriving DecidableEq, Repr, Inhabited

/-- Translation of `Module::findPortIdForNewStream` (`Module.cpp` lines
    194-230): resolve the config, run `CHECK(portId != in_portConfigId)`,
    resolve the owning port, refuse a second stream on the same config,
    require a mix port, and enforce `maxOpenStreamCount`. -/
def findPortIdForNewStream (s : ModuleState) (portConfigId : Int) : FindPortResult :=
  match findById (·.id) s.config.portConfigs portConfigId with
  | Option.none => .err .illegalArgument
  | some cfg =>
    if cfg.portId = portConfigId then .abortCheck
    else
      match findById (·.id) s.config.ports cfg.portId with
      | Option.none => .err .illegalArgument
      | some port =>
        if countStreams s portConfigId ≠ 0 then .err .illegalState
        else
          match port.ext with
          | .mix m =>
            if m.maxOpenStreamCount ≠ 0 ∧
                (countStreams s cfg.portId : Int) ≥ m.maxOpenStreamCount then
              .err .illegalState
            else .found port
          | _ => .err .illegalArgument

/-! ## Default config synthesis and profile lookup (`Module.cpp` lines 47-73
    and 118-128) -/

/-- Translation of `generateDefaultPortConfig` (`Module.cpp` lines 47-73):
    seeds a config from the port's first profile, failing if the port has no
    profiles or the first profile has no channel masks or no sample rates. -/
def generateDefaultPortConfig (port : AudioPort) : Option AudioPortConfig :=
  match port.profiles with
  | [] => Option.none
  | profile :: _ =>
    match profile.channelMasks with
    | [] => Option.none
    | cm :: _ =>
      match profile.sampleRates with
      | [] => Option.none
      | sr :: _ =>
        some { id := 0, portId := port.id, format := some profile.format,
               channelMask := some cm, sampleRate := some sr,
               gain := Option.none, flags := some port.flags, ext := port.ext }

/-- Translation of `findAudioProfile` (`Module.cpp` lines 118-128): the first
    profile of the port with the given format. -/
def findAudioProfile (port : AudioPort) (format : AudioFormatDescription) :
    Option AudioProfile :=
  port.profiles.find? fun p => decide (p.format = format)

/-! ## Patch creation and update (`Module.cpp` lines 513-608) -/

/-- Sink port ids of every route whose source list contains the owning port
    of one of the given source configs — the key set of the
    `allowedSinkPorts` map built at `Module.cpp` lines 550-561 (reading
    `allowedSinkPorts[r.sinkPortId]` default-inserts the key). -/
def patchSinkCandidates (routes : List AudioRoute)
    (sources : List AudioPortConfig) : List Int :=
  (routes.filter fun r =>
    sources.any fun src => decide (src.portId ∈ r.sourcePortIds)).map (·.sinkPortId)

/-- Whether some candidate route to `sinkPortId` is non-exclusive — the
    boolean accumulated per key in `allowedSinkPorts` ("prefer
    non-exclusive": once true it is never overwritten, so the final value is
    the disjunction). -/
def sinkNonExclusiveAvailable (routes : List AudioRoute)
    (sources : List AudioPortConfig) (sinkPortId : Int) : Bool :=
  (routes.filter fun r =>
    decide (r.sinkPortId = sinkPortId) &&
      sources.any fun src => decide (src.portId ∈ r.sourcePortIds)).any
    fun r => !r.isExclusive

/-- The validation loop of `Module.cpp` lines 583-592: some candidate sink
    port has only exclusive routes available and still occurs as a key of
    the reverse index. -/
def exclusiveConflict (routes : List AudioRoute)
    (sources : List AudioPortConfig) (mP : List (Int × Int)) : Bool :=
  (patchSinkCandidates routes sources).any fun sp =>
    !sinkNonExclusiveAvailable routes sources sp &&
      mP.any fun kv => decide (kv.1 = sp)

/-- Result of `Module::setAudioPatch`: the binder status with the finalized
    patch, the successor state, and the list of missing port-config ids that
    the failure log reports (`ToString(missingIds)` at `Module.cpp` lines
    537-538 and 543-544; empty on every other path). -/
structure SetPatchOutcome where
  result : Except ExCode AudioPatch
  state : ModuleState
  reportedMissingIds : List Int
  deriving DecidableEq, Repr, Inhabited

/-- Translation of `Module::setAudioPatch` (`Module.cpp` lines 513-608).
    The speculative `cleanUpPatch` of the updated patch's index entries is
    undone by restoring the backup on the exclusivity failure path, so that
    path returns the input state unchanged. -/
def setAudioPatch (k : ModuleConstants) (s : ModuleState) (req : AudioPatch) :
    SetPatchOutcome :=
  if req.sourcePortConfigIds.isEmpty then ⟨Except.error .illegalArgument, s, []⟩
  else if !all_unique req.sourcePortConfigIds then
    ⟨Except.error .illegalArgument, s, []⟩
  else if req.sinkPortConfigIds.isEmpty then ⟨Except.error .illegalArgument, s, []⟩
  else if !all_unique req.sinkPortConfigIds then
    ⟨Except.error .illegalArgument, s, []⟩
  else
    let configs := s.config.portConfigs
    let src := selectByIds configs req.sourcePortConfigIds
    if !src.2.isEmpty then ⟨Except.error .illegalArgument, s, src.2⟩
    else
      let snk := selectByIds configs req.sinkPortConfigIds
      if !snk.2.isEmpty then ⟨Except.error .illegalArgument, s, snk.2⟩
      else
        let routes := s.config.routes
        let cand := patchSinkCandidates routes src.1
        if !(snk.1.all fun sink => decide (sink.portId ∈ cand)) then
          ⟨Except.error .illegalArgument, s, []⟩
        else
          let finalize (patchId : Int) : AudioPatch :=
            { req with
              id := patchId
              minimumStreamBufferSizeFrames := k.kMinimumStreamBufferSizeFrames
              latenciesMs :=
                List.replicate req.sinkPortConfigIds.length k.kLatencyMs }
          if req.id ≠ 0 then
            match findById (·.id) s.config.patches req.id with
            | Option.none => ⟨Except.error .illegalArgument, s, []⟩
            | some _ =>
              let mP1 := cleanUpPatch s.mPatches req.id
              if exclusiveConflict routes src.1 mP1 then
                ⟨Except.error .illegalState, s, []⟩
              else
                let newPatch := finalize req.id
                ⟨Except.ok newPatch,
                 { s with
                   config := { s.config with
                     patches :=
                       replaceFirstById (·.id) s.config.patches req.id newPatch }
                   mPatches := registerPatch configs mP1 newPatch }, []⟩
          else
            if exclusiveConflict routes src.1 s.mPatches then
              ⟨Except.error .illegalState, s, []⟩
            else
              let newPatch := finalize s.config.nextPatchId
              ⟨Except.ok newPatch,
               { s with
                 config := { s.config with
                   patches := s.config.patches ++ [newPatch]
                   nextPatchId := s.config.nextPatchId + 1 }
                 mPatches := registerPatch configs s.mPatches newPatch }, []⟩

/-! ## Port config negotiation (`Module.cpp` lines 610-734) -/

/-- Flags check of `setAudioPortConfig` (`Module.cpp` lines 652-662): a
    supplied flags value must equal the port's fixed flags; an absent value
    is not a validity failure (only an incomplete specification). -/
def flagsValidB (port : AudioPort) (req : AudioPortConfig) : Bool :=
  match req.flags with
  | some f => decide (f = port.flags)
  | Option.none => true

/-- Format negotiation of `setAudioPortConfig` (`Module.cpp` lines 664-676):
    the suggested format (the requested one when it is among the port's
    profiles, the seed's otherwise) and the validity flag. -/
def formatNegotiation (port : AudioPort) (seed req : AudioPortConfig) :
    Option AudioFormatDescription × Bool :=
  match req.format with
  | some f =>
    if (findAudioProfile port f).isSome then (some f, true)
    else (seed.format, false)
  | Option.none => (seed.format, true)

/-- Channel-mask negotiation of `setAudioPortConfig` (`Module.cpp` lines
    683-696), against the profile matching the suggested format. -/
def channelMaskNegotiation (portProfile : AudioProfile)
    (seed req : AudioPortConfig) : Option AudioChannelLayout × Bool :=
  match req.channelMask with
  | some cm =>
    if cm ∈ portProfile.channelMasks then (some cm, true)
    else (seed.channelMask, false)
  | Option.none => (seed.channelMask, true)

/-- Sample-rate negotiation of `setAudioPortConfig` (`Module.cpp` lines
    698-711), against the profile matching the suggested format. -/
def sampleRateNegotiation (portProfile : AudioProfile)
    (seed req : AudioPortConfig) : Option Int × Bool :=
  match req.sampleRate with
  | some sr =>
    if sr ∈ portProfile.sampleRates then (some sr, true)
    else (seed.sampleRate, false)
  | Option.none => (seed.sampleRate, true)

/-- Core of `Module::setAudioPortConfig` once the target is resolved:
    `existing` is the stored config being updated, or `Option.none` for a
    creation request (`Module.cpp` lines 624-733). -/
def setAudioPortConfigWithTarget (s : ModuleState) (req : AudioPortConfig)
    (existing : Option AudioPortConfig) :
    Except ExCode (AudioPortConfig × Bool) × ModuleState :=
  let portId := match existing with
    | some e => e.portId
    | Option.none => req.portId
  if portId = 0 then (Except.error .illegalArgument, s)
  else
    match findById (·.id) s.config.ports portId with
    | Option.none => (Except.error .illegalArgument, s)
    | some port =>
      let seed? : Option AudioPortConfig :=
        match existing with
        | some e => some e
        | Option.none => generateDefaultPortConfig port
      match seed? with
      | Option.none => (Except.error .illegalArgument, s)
      | some seed =>
        let fmtRes := formatNegotiation port seed req
        match findAudioProfile port (fmtRes.1.getD {}) with
        | Option.none => (Except.error .illegalArgument, s)
        | some portProfile =>
          let cmRes := channelMaskNegotiation portProfile seed req
          let srRes := sampleRateNegotiation portProfile seed req
          let gain : Option Int :=
            match req.gain with
            | some g => some g
            | Option.none => seed.gain
          let sugg : AudioPortConfig :=
            { seed with
              format := fmtRes.1
              channelMask := cmRes.1
              sampleRate := srRes.1
              gain := gain }
          let requestedIsValid :=
            flagsValidB port req && fmtRes.2 && cmRes.2 && srRes.2
          let requestedIsFullySpecified :=
            req.flags.isSome && req.format.isSome &&
              req.channelMask.isSome && req.sampleRate.isSome
          match existing with
          | Option.none =>
            if requestedIsValid && requestedIsFullySpecified then
              let created := { sugg with id := s.config.nextPortId }
              (Except.ok (created, true),
               { s with config := { s.config with
                 portConfigs := s.config.portConfigs ++ [created]
                 nextPortId := s.config.nextPortId + 1 } })
            else (Except.ok (sugg, false), s)
          | some _ =>
            if requestedIsValid then
              (Except.ok (sugg, true),
               { s with config := { s.config with
                 portConfigs :=
                   replaceFirstById (·.id) s.config.portConfigs req.id sugg } })
            else (Except.ok (sugg, false), s)

/-- Translation of `Module::setAudioPortConfig` (`Module.cpp` lines 610-734):
    a request with a nonzero id must resolve to an existing config. -/
def setAudioPortConfig (s : ModuleState) (req : AudioPortConfig) :
    Except ExCode (AudioPortConfig × Bool) × ModuleState :=
  if req.id ≠ 0 then
    match findById (·.id) s.config.portConfigs req.id with
    | Option.none => (Except.error .illegalArgument, s)
    | some ex => setAudioPortConfigWithTarget s req (some ex)
  else setAudioPortConfigWithTarget s req Option.none

/-! ## External device connect and disconnect (`Module.cpp` lines 270-402) -/

/-- Translation of `Module::connectExternalDevice` (`Module.cpp` lines
    270-353).  The C++ reads the device payload of the input's `ext` union
    without checking its tag (a non-device-tagged input would trip the union
    getter); here a non-device-tagged input contributes an empty address. -/
def connectExternalDevice (s : ModuleState) (tpl : AudioPort) :
    Except ExCode AudioPort × ModuleState :=
  match findById (·.id) s.config.ports tpl.id with
  | Option.none => (Except.error .illegalArgument, s)
  | some t =>
    match t.ext with
    | .device tdev =>
      if !t.profiles.isEmpty then (Except.error .illegalArgument, s)
      else if tdev.device.type.connection = "" then
        (Except.error .illegalArgument, s)
      else
        let inAddr : String :=
          match tpl.ext with
          | .device d => d.device.address
          | _ => ""
        let candidate : AudioPortDeviceExt :=
          { tdev with device := { tdev.device with address := inAddr } }
        let port0 : AudioPort :=
          { t with
            extraAudioDescriptors := tpl.extraAudioDescriptors
            ext := .device candidate }
        if s.mConnectedDevicePorts.any (fun cid =>
            match findById (·.id) s.config.ports cid with
            | some cp =>
              match cp.ext with
              | .device cdev => decide (cdev.device = candidate.device)
              | _ => false
            | Option.none => false) then
          (Except.error .illegalState, s)
        else if !s.mDebug.simulateDeviceConnections then
          (Except.error .illegalState, s)
        else
          let newId := s.config.nextPortId + 1
          let profiles : List AudioProfile :=
            match s.config.connectedProfiles.find? fun kv => decide (kv.1 = tpl.id) with
            | some kv => kv.2
            | Option.none => port0.profiles
          let connectedPort := { port0 with id := newId, profiles := profiles }
          let modifiedRoutes := s.config.routes.map fun r =>
            if r.sinkPortId = tpl.id then r
            else if tpl.id ∈ r.sourcePortIds then
              { r with sourcePortIds := r.sourcePortIds ++ [newId] }
            else r
          let newRoutes :=
            (s.config.routes.filter fun r => decide (r.sinkPortId = tpl.id)).map
              fun r => { sourcePortIds := r.sourcePortIds, sinkPortId := newId,
                         isExclusive := r.isExclusive : AudioRoute }
          (Except.ok connectedPort,
           { s with
             config := { s.config with
               ports := s.config.ports ++ [connectedPort]
               routes := modifiedRoutes ++ newRoutes
               nextPortId := newId }
             mConnectedDevicePorts := newId :: s.mConnectedDevicePorts })
    | _ => (Except.error .illegalArgument, s)

/-- Translation of `Module::disconnectExternalDevice` (`Module.cpp` lines
    355-402). -/
def disconnectExternalDevice (s : ModuleState) (portId : Int) :
    Except ExCode Unit × ModuleState :=
  match findById (·.id) s.config.ports portId with
  | Option.none => (Except.error .illegalArgument, s)
  | some p =>
    match p.ext with
    | .device _ =>
      if portId ∉ s.mConnectedDevicePorts then (Except.error .illegalArgument, s)
      else if s.config.portConfigs.any (fun c =>
          decide (c.portId = portId) &&
            match findById (·.id) s.config.initialConfigs c.id with
            | Option.none => true
            | some ic => decide (c ≠ ic)) then
        (Except.error .illegalState, s)
      else
        (Except.ok (),
         { s with
           config := { s.config with
             ports := eraseFirstById (·.id) s.config.ports portId
             routes :=
               (s.config.routes.filter fun r => decide (r.sinkPortId ≠ portId)).map
                 fun r =>
                   { r with sourcePortIds :=
                       r.sourcePortIds.filter fun src => decide (src ≠ portId) } }
           mConnectedDevicePorts :=
             s.mConnectedDevicePorts.filter fun x => decide (x ≠ portId) })
    | _ => (Except.error .illegalArgument, s)

/-! ## Output stream opening (`Module.cpp` lines 481-511) -/

/-- Arguments of `IModule.openOutputStream` that the translated code reads;
    the offload-info payload is never inspected, only tested for presence. -/
structure OpenOutputStreamArguments where
  portConfigId : Int := 0
  offloadInfo : Option Int := Option.none
  bufferSizeFrames : Int := 0
  deriving DecidableEq, Repr, Inhabited

/-- Result of a stream-opening call: a binder status with the successor
    state, or process death through the failed `CHECK` inside
    `findPortIdForNewStream`. -/
inductive StreamOpResult where
  | res (r : Except ExCode Unit) (s : ModuleState)
  | aborted
  deriving DecidableEq, Repr, Inhabited

/-- Bit position of `AudioOutputFlags::COMPRESS_OFFLOAD` in the AIDL enum
    (DIRECT, PRIMARY, FAST, DEEP_BUFFER, COMPRESS_OFFLOAD, ...). -/
def compressOffloadBit : Nat := 4

/-- Translation of `Module::openOutputStream` (`Module.cpp` lines 481-511):
    resolve the port, require an output mix port, require offload info when
    the port carries COMPRESS_OFFLOAD, build the descriptor, then register
    the stream. -/
def openOutputStream (k : ModuleConstants) (s : ModuleState)
    (args : OpenOutputStreamArguments) : StreamOpResult :=
  match findPortIdForNewStream s args.portConfigId with
  | .abortCheck => .aborted
  | .err e => .res (Except.error e) s
  | .found port =>
    match port.flags with
    | .input _ => .res (Except.error .illegalArgument) s
    | .output obits =>
      if (obits &&& (1 <<< compressOffloadBit)) ≠ 0 ∧ args.offloadInfo.isNone then
        .res (Except.error .illegalArgument) s
      else
        let cfg := (findById (·.id) s.config.portConfigs args.portConfigId).getD {}
        match createStreamDescriptor k cfg args.bufferSizeFrames with
        | Except.error e => .res (Except.error e) s
        | Except.ok () =>
          .res (Except.ok ())
            { s with mStreams := (port.id, args.portConfigId) :: s.mStreams }

/-! ## The patch-usage reverse-index invariant (claims C1, C2) -/

/-- Same elements, disregarding order and multiplicity. -/
def sameElems (xs ys : List Int) : Prop :=
  (∀ a ∈ xs, a ∈ ys) ∧ (∀ a ∈ ys, a ∈ xs)

instance (xs ys : List Int) : Decidable (sameElems xs ys) := by
  unfold sameElems; infer_instance

/-- Stated from the claim's words (C1): the ids a patch is expected to
    occupy in the reverse index — its current source and sink port-config
    ids plus the owning port ids of those of them that resolve in the
    config list. -/
def patchClaimKeys (configs : List AudioPortConfig) (p : AudioPatch) : List Int :=
  (p.sourcePortConfigIds ++ p.sinkPortConfigIds) ++
    (p.sourcePortConfigIds ++ p.sinkPortConfigIds).filterMap
      fun i => (findById (·.id) configs i).map (·.portId)

/-- The claim's invariant (C1): for every patch in the store, the reverse
    index restricted to that patch's id holds exactly the patch's expected
    key set. -/
def patchIndexInv (s : ModuleState) : Prop :=
  ∀ p ∈ s.config.patches,
    sameElems ((s.mPatches.filter fun kv => decide (kv.2 = p.id)).map Prod.fst)
      (patchClaimKeys s.config.portConfigs p)

instance (s : ModuleState) : Decidable (patchIndexInv s) := by
  unfold patchIndexInv; infer_instance

/-- Basic well-formedness of the patch store, maintained by the module's own
    operations and needed for the invariant to be inductive: patch ids are
    unique and below the id counter, index values stay below the counter,
    and every id referenced by a patch resolves in the config list. -/
def storeWF (s : ModuleState) : Prop :=
  (s.config.patches.map (·.id)).Nodup ∧
  (∀ kv ∈ s.mPatches, kv.2 < s.config.nextPatchId) ∧
  (∀ p ∈ s.config.patches, p.id < s.config.nextPatchId) ∧
  (∀ p ∈ s.config.patches,
    ∀ i ∈ p.sourcePortConfigIds ++ p.sinkPortConfigIds,
      (findById (·.id) s.config.portConfigs i).isSome)

instance (s : ModuleState) : Decidable (storeWF s) := by
  unfold storeWF; infer_instance

/-! ## Concrete stores used by the counterexamples and failing inputs -/

/-- Port config with id 1 owned by port 101. -/
def cfgA : AudioPortConfig := { id := 1, portId := 101 }

/-- Port config with id 2 owned by port 102. -/
def cfgB : AudioPortConfig := { id := 2, portId := 102 }

/-- Port config with id 3 owned by port 103. -/
def cfgC : AudioPortConfig := { id := 3, portId := 103 }

/-- Patch-free store with three configs and one non-exclusive route from
    ports 101 and 103 to port 102; the reverse index is empty, so the C1
    invariant holds trivially. -/
def patchStoreS0 : ModuleState :=
  { config := { portConfigs := [cfgA, cfgC, cfgB]
                routes := [{ sourcePortIds := [101, 103], sinkPortId := 102,
                             isExclusive := false }]
                nextPatchId := 1 } }

/-- Request for a fresh patch taking configs 1 and 3 to config 2. -/
def patchReq0 : AudioPatch :=
  { id := 0, sourcePortConfigIds := [1, 3], sinkPortConfigIds := [2] }

/-- Store reached from `patchStoreS0` by one successful `setAudioPatch`. -/
def patchStoreS1 : ModuleState :=
  (setAudioPatch {} patchStoreS0 patchReq0).state

/-- C1 counterexample: the store `patchStoreS1` — reachable from the
    patch-free store `patchStoreS0` by one `setAudioPatch` — satisfies the
    claim's invariant, but running `cleanUpPatches` on port-config id 1
    breaks it: the surviving patch's source list no longer contains 1, yet
    the reverse index keeps the stale entries for key 1 (and for its owning
    port 101). -/
theorem cleanUpPatches_violates_patchIndexInv :
    (patchIndexInv patchStoreS0 ∧ storeWF patchStoreS0) ∧
    (patchIndexInv patchStoreS1 ∧ storeWF patchStoreS1) ∧
    ¬ patchIndexInv (cleanUpPatches patchStoreS1 1) := by
  decide

/-! ## C3: `cleanUpPatches` postcondition -/

/-- Store holding a single patch (necessarily at position 0) that references
    config 1 as its only source, with a consistent reverse index. -/
def c3Store : ModuleState :=
  { config := { portConfigs := [cfgA, cfgB]
                patches := [{ id := 10, sourcePortConfigIds := [1],
                              sinkPortConfigIds := [2] }]
                nextPatchId := 11 }
    mPatches := [(1, 10), (101, 10), (2, 10), (102, 10)] }

/-- C3 failing input: `cleanUpPatches c3Store 1` strips config id 1 from the
    patch, leaving its source list empty — yet the patch, sitting at
    position 0, is not deleted (the C++ deletion loop runs `i` from
    `size()-1` down to, but excluding, 0) and all of its reverse-index
    entries survive, contradicting the claim that any patch left with an
    empty source or sink list is deleted with its index entries removed. -/
theorem cleanUpPatches_keeps_empty_patch_at_head :
    (cleanUpPatches c3Store 1).config.patches =
      [{ id := 10, sourcePortConfigIds := [], sinkPortConfigIds := [2] }] ∧
    (cleanUpPatches c3Store 1).mPatches = [(1, 10), (101, 10), (2, 10), (102, 10)] := by
  decide

/-! ## C9: the shared id counter and the `CHECK` in `findPortIdForNewStream` -/

/-- Profile used by the connected device port in the C9 scenario. -/
def c9Profile : AudioProfile :=
  { format := { type := .pcm, pcm := .INT_16_BIT }
    channelMasks := [.layoutMask 3]
    sampleRates := [48000] }

/-- Template device port with id 1 (externally connectable, dynamic
    profiles). -/
def c9Template : AudioPort :=
  { id := 1, profiles := []
    flags := .input 0
    ext := .device { device := { type := { type := 5, connection := "usb" },
                                 address := "" } } }

/-- Initial store for the C9 scenario: the template port, connected profiles
    for it, `nextPortId = 1`, simulation enabled. -/
def c9Store : ModuleState :=
  { config := { ports := [c9Template]
                nextPortId := 1
                connectedProfiles := [(1, [c9Profile])] }
    mDebug := { simulateDeviceConnections := true } }

/-- Connection request: template id 1 plus the external device address. -/
def c9ConnectReq : AudioPort :=
  { id := 1
    ext := .device { device := { type := { type := 5, connection := "usb" },
                                 address := "card=1" } } }

/-- Store after connecting the external device: `connectExternalDevice`
    assigns port id `++nextPortId = 2`. -/
def c9AfterConnect : ModuleState := (connectExternalDevice c9Store c9ConnectReq).2

/-- Fully specified, valid config-creation request for the connected port. -/
def c9ConfigReq : AudioPortConfig :=
  { id := 0, portId := 2, flags := some (.input 0)
    format := some { type := .pcm, pcm := .INT_16_BIT }
    channelMask := some (.layoutMask 3), sampleRate := some 48000 }

/-- Store after persisting the new port config: `setAudioPortConfig` assigns
    config id `nextPortId++ = 2` — the same value the port just received. -/
def c9AfterConfig : ModuleState := (setAudioPortConfig c9AfterConnect c9ConfigReq).2

/-- C9 failing input: after `connectExternalDevice` (pre-increment, port id
    becomes 2 = the new `nextPortId`) an immediately following
    `setAudioPortConfig` creation (post-increment) hands the new config id
    2 as well, so the persisted config has `id = portId = 2` — a port-config
    id equal to a port id, violating the claimed invariant — and
    `findPortIdForNewStream` on that config id trips
    `CHECK(portId != in_portConfigId)`, aborting the process. -/
theorem setAudioPortConfig_after_connect_collides_with_port_id :
    (Except.toOption (setAudioPortConfig c9AfterConnect c9ConfigReq).1).map
        (fun pr => (pr.1.id, pr.1.portId, pr.2)) = some (2, 2, true) ∧
    (c9AfterConfig.config.ports.map (·.id)).contains 2 = true ∧
    findPortIdForNewStream c9AfterConfig 2 = FindPortResult.abortCheck := by
  decide

/-! ## C8: reporting of missing port-config ids by `setAudioPatch` -/

/-- Missing ids collected by `selectByIds` are exactly the queried ids whose
    lookup fails, in order. -/
theorem selectByIds_missing (configs : List AudioPortConfig) (ids : List Int) :
    (selectByIds configs ids).2 =
      ids.filter fun i => (findById (·.id) configs i).isNone := by
  induction ids with
  | nil => rfl
  | cons i is ih =>
    simp only [selectByIds, List.filter_cons]
    cases h : findById (·.id) configs i <;>
      simp [h, ih]

/-- Store with no port configs at all for the C8 counterexample. -/
def c8Store : ModuleState := {}

/-- Patch request whose source id 1 and sink id 2 are both unresolvable. -/
def c8Req : AudioPatch :=
  { id := 0, sourcePortConfigIds := [1], sinkPortConfigIds := [2] }

/-- C8 counterexample: with both the source id 1 and the sink id 2 missing,
    the single failure reports only the missing source ids `[1]`; the
    missing sink id 2 is not part of the report, so the failure does not
    carry the complete list of missing ids across the whole request. -/
theorem setAudioPatch_reports_only_source_list :
    (setAudioPatch {} c8Store c8Req).result = Except.error .illegalArgument ∧
    findById (·.id) c8Store.config.portConfigs 2 = Option.none ∧
    (setAudioPatch {} c8Store c8Req).reportedMissingIds = [1] ∧
    2 ∉ (setAudioPatch {} c8Store c8Req).reportedMissingIds := by
  decide

/-- C8 as amended: once the request's two id lists pass the shape checks,
    `setAudioPatch` checks sources first — if any source ids are missing it
    fails reporting the complete list of missing source ids (the sinks are
    not examined); only when all sources resolve does it check sinks,
    failing with the complete list of missing sink ids. -/
theorem setAudioPatch_reports_all_missing_of_failing_list (k : ModuleConstants)
    (s : ModuleState) (req : AudioPatch)
    (h1 : req.sourcePortConfigIds.isEmpty = false)
    (h2 : all_unique req.sourcePortConfigIds = true)
    (h3 : req.sinkPortConfigIds.isEmpty = false)
    (h4 : all_unique req.sinkPortConfigIds = true) :
    ((req.sourcePortConfigIds.filter fun i =>
        (findById (·.id) s.config.portConfigs i).isNone) ≠ [] →
      setAudioPatch k s req =
        ⟨Except.error .illegalArgument, s,
         req.sourcePortConfigIds.filter fun i =>
           (findById (·.id) s.config.portConfigs i).isNone⟩) ∧
    ((req.sourcePortConfigIds.filter fun i =>
        (findById (·.id) s.config.portConfigs i).isNone) = [] →
     (req.sinkPortConfigIds.filter fun i =>
        (findById (·.id) s.config.portConfigs i).isNone) ≠ [] →
      setAudioPatch k s req =
        ⟨Except.error .illegalArgument, s,
         req.sinkPortConfigIds.filter fun i =>
           (findById (·.id) s.config.portConfigs i).isNone⟩) := by
  constructor
  · intro hmiss
    simp only [setAudioPatch, h1, h2, h3, h4, Bool.not_true, Bool.false_eq_true,
      if_false, selectByIds_missing]
    simp [hmiss]
  · intro hsrc hsnk
    simp only [setAudioPatch, h1, h2, h3, h4, Bool.not_true, Bool.false_eq_true,
      if_false, selectByIds_missing]
    simp [hsrc, hsnk]

/-- Witness for the amended C8 theorem at a concrete input: source ids `[5]`
    (missing) and sink ids `[2]` against a store holding only config 2. -/
theorem setAudioPatch_reports_all_missing_witness :
    setAudioPatch {} { config := { portConfigs := [cfgB] } }
        { id := 0, sourcePortConfigIds := [5], sinkPortConfigIds := [2] } =
      ⟨Except.error .illegalArgument, { config := { portConfigs := [cfgB] } }, [5]⟩ :=
  ((setAudioPatch_reports_all_missing_of_failing_list {}
      { config := { portConfigs := [cfgB] } }
      { id := 0, sourcePortConfigIds := [5], sinkPortConfigIds := [2] }
      (by decide) (by decide) (by decide) (by decide)).1 (by decide))

/-! ## C6: `createStreamDescriptor` failure conditions -/

/-- C6: for every port config and requested frame count,
    `createStreamDescriptor` fails with IllegalArgument exactly when the
    count is non-positive, or below the configured minimum, or the config's
    frame size is 0, or the frame size exceeds `maxBytes / bufferSizeFrames`
    (the overflow-safe comparison); and whenever the frame size is 4 and the
    minimum fits, `maxBytes / 4 + 1` frames are rejected while `maxBytes / 4`
    frames are accepted. -/
theorem createStreamDescriptor_reject_characterization :
    (∀ (k : ModuleConstants) (cfg : AudioPortConfig) (n : Int),
      createStreamDescriptor k cfg n = Except.error .illegalArgument ↔
        (n ≤ 0 ∨ n < k.kMinimumStreamBufferSizeFrames ∨ configFrameSize cfg = 0 ∨
          configFrameSize cfg > k.kMaximumStreamBufferSizeBytes / n.toNat)) ∧
    (∀ (k : ModuleConstants) (cfg : AudioPortConfig),
      configFrameSize cfg = 4 →
      0 < k.kMaximumStreamBufferSizeBytes / 4 →
      k.kMinimumStreamBufferSizeFrames ≤
        ((k.kMaximumStreamBufferSizeBytes / 4 : Nat) : Int) →
      createStreamDescriptor k cfg ((k.kMaximumStreamBufferSizeBytes / 4 : Nat) : Int) =
          Except.ok () ∧
      createStreamDescriptor k cfg ((k.kMaximumStreamBufferSizeBytes / 4 + 1 : Nat) : Int) =
          Except.error .illegalArgument) := by
  have hmain : ∀ (k : ModuleConstants) (cfg : AudioPortConfig) (n : Int),
      createStreamDescriptor k cfg n = Except.error .illegalArgument ↔
        (n ≤ 0 ∨ n < k.kMinimumStreamBufferSizeFrames ∨ configFrameSize cfg = 0 ∨
          configFrameSize cfg > k.kMaximumStreamBufferSizeBytes / n.toNat) := by
    intro k cfg n
    simp only [createStreamDescriptor]
    split_ifs with hf1 hf2 hf3 hf4
    · exact iff_of_true rfl (Or.inl hf1)
    · exact iff_of_true rfl (Or.inr (Or.inl hf2))
    · exact iff_of_true rfl (Or.inr (Or.inr (Or.inl hf3)))
    · exact iff_of_true rfl (Or.inr (Or.inr (Or.inr hf4)))
    · exact iff_of_false (by simp) (by tauto)
  refine ⟨hmain, ?_⟩
  intro k cfg hfs hq hmin
  constructor
  · cases hacc : createStreamDescriptor k cfg
        ((k.kMaximumStreamBufferSizeBytes / 4 : Nat) : Int) with
    | ok u => cases u; rfl
    | error e =>
      cases e with
      | illegalState =>
        exfalso
        revert hacc
        simp only [createStreamDescriptor]
        split_ifs <;> intro h <;> cases h
      | illegalArgument =>
        exfalso
        rcases (hmain k cfg ((k.kMaximumStreamBufferSizeBytes / 4 : Nat) : Int)).1
            hacc with h | h | h | h
        · omega
        · omega
        · omega
        · rw [Int.toNat_natCast, hfs] at h
          have h4 : 4 * (k.kMaximumStreamBufferSizeBytes / 4) ≤
              k.kMaximumStreamBufferSizeBytes := by
            have := Nat.div_add_mod k.kMaximumStreamBufferSizeBytes 4
            omega
          have := (Nat.le_div_iff_mul_le hq).2 h4
          omega
  · rw [hmain k cfg ((k.kMaximumStreamBufferSizeBytes / 4 + 1 : Nat) : Int)]
    right; right; right
    rw [Int.toNat_natCast, hfs]
    have hmod := Nat.div_add_mod k.kMaximumStreamBufferSizeBytes 4
    have hmodlt : k.kMaximumStreamBufferSizeBytes % 4 < 4 :=
      Nat.mod_lt _ (by omega)
    have hlt : k.kMaximumStreamBufferSizeBytes <
        4 * (k.kMaximumStreamBufferSizeBytes / 4 + 1) := by omega
    have := (Nat.div_lt_iff_lt_mul
      (by omega : 0 < k.kMaximumStreamBufferSizeBytes / 4 + 1)).2 hlt
    omega

/-- Witness for C6 at concrete inputs: a PCM 16-bit stereo config (frame
    size 4) with `maxBytes = 1024` and minimum 16 frames: 256 frames are
    accepted, 257 frames are rejected, and 0 frames are rejected. -/
theorem createStreamDescriptor_reject_witness :
    createStreamDescriptor
        { kMinimumStreamBufferSizeFrames := 16, kMaximumStreamBufferSizeBytes := 1024,
          kLatencyMs := 10 }
        { id := 7, portId := 1, format := some { type := .pcm, pcm := .INT_16_BIT },
          channelMask := some (.layoutMask 3) } ((256 : Nat) : Int) = Except.ok () ∧
    createStreamDescriptor
        { kMinimumStreamBufferSizeFrames := 16, kMaximumStreamBufferSizeBytes := 1024,
          kLatencyMs := 10 }
        { id := 7, portId := 1, format := some { type := .pcm, pcm := .INT_16_BIT },
          channelMask := some (.layoutMask 3) } ((257 : Nat) : Int) =
      Except.error .illegalArgument ∧
    createStreamDescriptor
        { kMinimumStreamBufferSizeFrames := 16, kMaximumStreamBufferSizeBytes := 1024,
          kLatencyMs := 10 }
        { id := 7, portId := 1, format := some { type := .pcm, pcm := .INT_16_BIT },
          channelMask := some (.layoutMask 3) } 0 = Except.error .illegalArgument := by
  refine ⟨?_, ?_, ?_⟩
  · exact (createStreamDescriptor_reject_characterization.2
      { kMinimumStreamBufferSizeFrames := 16, kMaximumStreamBufferSizeBytes := 1024,
        kLatencyMs := 10 }
      { id := 7, portId := 1, format := some { type := .pcm, pcm := .INT_16_BIT },
        channelMask := some (.layoutMask 3) } (by decide) (by decide) (by decide)).1
  · exact (createStreamDescriptor_reject_characterization.2
      { kMinimumStreamBufferSizeFrames := 16, kMaximumStreamBufferSizeBytes := 1024,
        kLatencyMs := 10 }
      { id := 7, portId := 1, format := some { type := .pcm, pcm := .INT_16_BIT },
        channelMask := some (.layoutMask 3) } (by decide) (by decide) (by decide)).2
  · exact (createStreamDescriptor_reject_characterization.1
      { kMinimumStreamBufferSizeFrames := 16, kMaximumStreamBufferSizeBytes := 1024,
        kLatencyMs := 10 }
      { id := 7, portId := 1, format := some { type := .pcm, pcm := .INT_16_BIT },
        channelMask := some (.layoutMask 3) } 0).2 (by left; decide)

/-! ## C10: COMPRESS_OFFLOAD output streams require offload info -/

/-- C10: when the requested port config resolves to an output mix port whose
    flags carry COMPRESS_OFFLOAD and the arguments carry no offload info,
    `openOutputStream` fails with IllegalArgument and the state — in
    particular the stream registry — is returned unchanged, so no stream is
    created or registered. -/
theorem openOutputStream_compress_offload_requires_info (k : ModuleConstants)
    (s : ModuleState) (args : OpenOutputStreamArguments) (port : AudioPort)
    (obits : Nat)
    (hfound : findPortIdForNewStream s args.portConfigId = .found port)
    (hout : port.flags = .output obits)
    (hbit : obits &&& (1 <<< compressOffloadBit) ≠ 0)
    (hnoinfo : args.offloadInfo = Option.none) :
    openOutputStream k s args = .res (Except.error .illegalArgument) s := by
  simp only [openOutputStream, hfound, hout]
  simp [hbit, hnoinfo]

/-- Output mix port with the COMPRESS_OFFLOAD flag set, for the C10
    witness. -/
def c10Port : AudioPort :=
  { id := 20, profiles := [c9Profile], flags := .output (1 <<< 4)
    ext := .mix { maxOpenStreamCount := 0 } }

/-- Config 21 on the compress-offload port 20. -/
def c10Cfg : AudioPortConfig :=
  { id := 21, portId := 20, format := some { type := .pcm, pcm := .INT_16_BIT }
    channelMask := some (.layoutMask 3), flags := some (.output (1 <<< 4)) }

/-- Store for the C10 witness. -/
def c10Store : ModuleState :=
  { config := { ports := [c10Port], portConfigs := [c10Cfg] } }

/-- Witness for C10 at a concrete input: an offload-flagged output mix port
    with no offload info in the arguments. -/
theorem openOutputStream_compress_offload_witness :
    openOutputStream {} c10Store
        { portConfigId := 21, offloadInfo := Option.none, bufferSizeFrames := 64 } =
      .res (Except.error .illegalArgument) c10Store :=
  openOutputStream_compress_offload_requires_info {} c10Store
    { portConfigId := 21, offloadInfo := Option.none, bufferSizeFrames := 64 }
    c10Port (1 <<< 4) (by decide) (by decide) (by decide) (by decide)

/-! ## C5: connect followed by disconnect restores ports and routes -/

/-- Lookup by id skips a prefix containing no element with that id. -/
theorem findById_append_right {α : Type} (getId : α → Int) (xs ys : List α)
    (i : Int) (h : ∀ x ∈ xs, getId x ≠ i) :
    findById getId (xs ++ ys) i = findById getId ys i := by
  induction xs with
  | nil => rfl
  | cons x xs ih =>
    simp only [List.cons_append, findById]
    rw [if_neg (h x (List.mem_cons_self x xs))]
    exact ih fun a ha => h a (List.mem_cons_of_mem x ha)

/-- Erasing the id of a freshly appended element removes exactly that
    element when no earlier element carries the id. -/
theorem eraseFirstById_append_last {α : Type} (getId : α → Int) (xs : List α)
    (y : α) (h : ∀ x ∈ xs, getId x ≠ getId y) :
    eraseFirstById getId (xs ++ [y]) (getId y) = xs := by
  induction xs with
  | nil => simp [eraseFirstById]
  | cons x xs ih =>
    simp only [List.cons_append, eraseFirstById]
    rw [if_neg (h x (List.mem_cons_self x xs))]
    simp only [List.append_eq]
    rw [ih fun a ha => h a (List.mem_cons_of_mem x ha)]

/-- Filtering out an absent value is the identity. -/
theorem filter_ne_of_not_mem (xs : List Int) (a : Int) (h : a ∉ xs) :
    (xs.filter fun x => decide (x ≠ a)) = xs :=
  List.filter_eq_self.mpr fun b hb =>
    decide_eq_true fun e => h (e ▸ hb)

/-- Round trip of the route rewriting: extending the routes for a connected
    port with a fresh id (clone template-sink routes, append the id to
    template-source routes) and then removing that id (drop its sink routes,
    strip it from source lists) restores the original route list, provided
    the fresh id occurred nowhere in it. -/
theorem connect_route_roundtrip (tplId newId : Int) (routes : List AudioRoute)
    (h : ∀ r ∈ routes, r.sinkPortId ≠ newId ∧ newId ∉ r.sourcePortIds) :
    (((routes.map fun r =>
        if r.sinkPortId = tplId then r
        else if tplId ∈ r.sourcePortIds then
          { r with sourcePortIds := r.sourcePortIds ++ [newId] }
        else r).filter fun r => decide (r.sinkPortId ≠ newId)).map
      fun r =>
        { r with sourcePortIds :=
            r.sourcePortIds.filter fun src => decide (src ≠ newId) }) = routes := by
  induction routes with
  | nil => rfl
  | cons r rs ih =>
    obtain ⟨hsink, hmem⟩ := h r (List.mem_cons_self r rs)
    have ih' := ih fun a ha => h a (List.mem_cons_of_mem r ha)
    simp only [List.map_cons]
    by_cases h1 : r.sinkPortId = tplId
    · rw [if_pos h1]
      rw [List.filter_cons_of_pos (by simpa using hsink)]
      simp only [List.map_cons, ih']
      rw [filter_ne_of_not_mem _ _ hmem]
    · rw [if_neg h1]
      by_cases h2 : tplId ∈ r.sourcePortIds
      · rw [if_pos h2]
        rw [List.filter_cons_of_pos (by simpa using hsink)]
        simp only [List.map_cons, ih']
        have : ((r.sourcePortIds ++ [newId]).filter fun src => decide (src ≠ newId)) =
            r.sourcePortIds := by
          rw [List.filter_append, filter_ne_of_not_mem _ _ hmem]
          simp
        rw [this]
      · rw [if_neg h2]
        rw [List.filter_cons_of_pos (by simpa using hsink)]
        simp only [List.map_cons, ih']
        rw [filter_ne_of_not_mem _ _ hmem]

/-- Helper for C5: disconnecting the freshly created port from the
    post-connect store succeeds and restores the port and route lists,
    provided every pre-existing id lies at or below the old counter. -/
theorem disconnect_fresh_restores (s : ModuleState) (tplId : Int)
    (np : AudioPort) (d : AudioPortDeviceExt)
    (hports : ∀ p ∈ s.config.ports, p.id ≤ s.config.nextPortId)
    (hconfigs : ∀ c ∈ s.config.portConfigs, c.portId ≤ s.config.nextPortId)
    (hsinks : ∀ r ∈ s.config.routes, r.sinkPortId ≤ s.config.nextPortId)
    (hsrcs : ∀ r ∈ s.config.routes, ∀ src ∈ r.sourcePortIds,
      src ≤ s.config.nextPortId)
    (hid : np.id = s.config.nextPortId + 1)
    (hext : np.ext = .device d) :
    (disconnectExternalDevice
      { s with
        config := { s.config with
          ports := s.config.ports ++ [np]
          routes := (s.config.routes.map fun r =>
              if r.sinkPortId = tplId then r
              else if tplId ∈ r.sourcePortIds then
                { r with sourcePortIds := r.sourcePortIds ++ [s.config.nextPortId + 1] }
              else r) ++
            ((s.config.routes.filter fun r => decide (r.sinkPortId = tplId)).map
              fun r => { sourcePortIds := r.sourcePortIds,
                         sinkPortId := s.config.nextPortId + 1,
                         isExclusive := r.isExclusive })
          nextPortId := s.config.nextPortId + 1 }
        mConnectedDevicePorts := (s.config.nextPortId + 1) :: s.mConnectedDevicePorts }
      (s.config.nextPortId + 1)).1 = Except.ok () ∧
    (disconnectExternalDevice
      { s with
        config := { s.config with
          ports := s.config.ports ++ [np]
          routes := (s.config.routes.map fun r =>
              if r.sinkPortId = tplId then r
              else if tplId ∈ r.sourcePortIds then
                { r with sourcePortIds := r.sourcePortIds ++ [s.config.nextPortId + 1] }
              else r) ++
            ((s.config.routes.filter fun r => decide (r.sinkPortId = tplId)).map
              fun r => { sourcePortIds := r.sourcePortIds,
                         sinkPortId := s.config.nextPortId + 1,
                         isExclusive := r.isExclusive })
          nextPortId := s.config.nextPortId + 1 }
        mConnectedDevicePorts := (s.config.nextPortId + 1) :: s.mConnectedDevicePorts }
      (s.config.nextPortId + 1)).2.config.ports = s.config.ports ∧
    (disconnectExternalDevice
      { s with
        config := { s.config with
          ports := s.config.ports ++ [np]
          routes := (s.config.routes.map fun r =>
              if r.sinkPortId = tplId then r
              else if tplId ∈ r.sourcePortIds then
                { r with sourcePortIds := r.sourcePortIds ++ [s.config.nextPortId + 1] }
              else r) ++
            ((s.config.routes.filter fun r => decide (r.sinkPortId = tplId)).map
              fun r => { sourcePortIds := r.sourcePortIds,
                         sinkPortId := s.config.nextPortId + 1,
                         isExclusive := r.isExclusive })
          nextPortId := s.config.nextPortId + 1 }
        mConnectedDevicePorts := (s.config.nextPortId + 1) :: s.mConnectedDevicePorts }
      (s.config.nextPortId + 1)).2.config.routes = s.config.routes := by
  have hfresh : ∀ x ∈ s.config.ports, x.id ≠ s.config.nextPortId + 1 := by
    intro x hx
    have := hports x hx
    omega
  have hfind2 : findById (·.id) (s.config.ports ++ [np])
      (s.config.nextPortId + 1) = some np := by
    rw [findById_append_right (fun x : AudioPort => x.id) s.config.ports [np]
      (s.config.nextPortId + 1) hfresh]
    simp [findById, hid]
  have hany : (s.config.portConfigs.any fun c =>
      decide (c.portId = s.config.nextPortId + 1) &&
        match findById (·.id) s.config.initialConfigs c.id with
        | Option.none => true
        | some ic => decide (c ≠ ic)) = false := by
    rw [List.any_eq_false]
    intro c hc
    have := hconfigs c hc
    simp only [Bool.and_eq_true, decide_eq_true_eq]
    intro hcon
    omega
  have herase : eraseFirstById (·.id) (s.config.ports ++ [np])
      (s.config.nextPortId + 1) = s.config.ports := by
    have h0 := eraseFirstById_append_last (fun x : AudioPort => x.id)
      s.config.ports np (by simpa [hid] using hfresh)
    simpa [hid] using h0
  have hni : ¬((s.config.nextPortId + 1) ∉
      (s.config.nextPortId + 1) :: s.mConnectedDevicePorts) :=
    fun hno => hno (List.mem_cons_self _ _)
  simp only [disconnectExternalDevice, hfind2, hext]
  simp only [if_neg hni, hany, Bool.false_eq_true, if_false]
  refine ⟨trivial, herase, ?_⟩
  rw [List.filter_append]
  have hnil : (((s.config.routes.filter fun r => decide (r.sinkPortId = tplId)).map
      fun r => ({ sourcePortIds := r.sourcePortIds,
                  sinkPortId := s.config.nextPortId + 1,
                  isExclusive := r.isExclusive } : AudioRoute)).filter
        fun r => decide (r.sinkPortId ≠ s.config.nextPortId + 1)) = [] := by
    rw [List.filter_eq_nil_iff]
    intro a ha
    simp only [List.mem_map] at ha
    obtain ⟨r, hmem2, rfl⟩ := ha
    simp
  rw [hnil, List.append_nil]
  exact connect_route_roundtrip tplId (s.config.nextPortId + 1) s.config.routes
    fun r hr => ⟨by have := hsinks r hr; omega,
                 fun hm => by have := hsrcs r hr _ hm; omega⟩

theorem connect_then_disconnect_restores (s : ModuleState) (tpl : AudioPort)
    (newPort : AudioPort) (s1 : ModuleState)
    (hports : ∀ p ∈ s.config.ports, p.id ≤ s.config.nextPortId)
    (hconfigs : ∀ c ∈ s.config.portConfigs, c.portId ≤ s.config.nextPortId)
    (hsinks : ∀ r ∈ s.config.routes, r.sinkPortId ≤ s.config.nextPortId)
    (hsrcs : ∀ r ∈ s.config.routes, ∀ src ∈ r.sourcePortIds,
      src ≤ s.config.nextPortId)
    (hconn : connectExternalDevice s tpl = (Except.ok newPort, s1)) :
    (disconnectExternalDevice s1 newPort.id).1 = Except.ok () ∧
    (disconnectExternalDevice s1 newPort.id).2.config.ports = s.config.ports ∧
    (disconnectExternalDevice s1 newPort.id).2.config.routes = s.config.routes := by
  simp only [connectExternalDevice] at hconn
  split at hconn
  · cases hconn
  next t hfind =>
  split at hconn
  case h_2 => cases hconn
  case h_1 tdev hdev =>
  split at hconn
  · cases hconn
  split at hconn
  · cases hconn
  split at hconn
  · cases hconn
  split at hconn
  · cases hconn
  split at hconn
  case h_1 kv hkv =>
    cases hconn
    exact disconnect_fresh_restores s tpl.id _ _ hports hconfigs hsinks hsrcs rfl rfl
  case h_2 hkv =>
    cases hconn
    exact disconnect_fresh_restores s tpl.id _ _ hports hconfigs hsinks hsrcs rfl rfl

/-- Store for the C5 witness: a connectable template device port 1 and a
    mix port 2, with routes in both directions. -/
def c5Store : ModuleState :=
  { config := { ports := [c9Template,
                          { id := 2, profiles := [c9Profile], flags := .output 0,
                            ext := .mix { maxOpenStreamCount := 0 } }]
                nextPortId := 2
                routes := [{ sourcePortIds := [1], sinkPortId := 2,
                             isExclusive := false },
                           { sourcePortIds := [2], sinkPortId := 1,
                             isExclusive := true }]
                connectedProfiles := [(1, [c9Profile])] }
    mDebug := { simulateDeviceConnections := true } }

/-- The port that `connectExternalDevice c5Store c9ConnectReq` creates. -/
def c5NewPort : AudioPort :=
  { id := 3, profiles := [c9Profile], flags := .input 0
    extraAudioDescriptors := []
    ext := .device { device := { type := { type := 5, connection := "usb" },
                                 address := "card=1" } } }

/-- Witness for C5 at a concrete input: connecting the USB device and
    immediately disconnecting port 3 restores the port and route lists. -/
theorem connect_then_disconnect_witness :
    (disconnectExternalDevice (connectExternalDevice c5Store c9ConnectReq).2
        c5NewPort.id).1 = Except.ok () ∧
    (disconnectExternalDevice (connectExternalDevice c5Store c9ConnectReq).2
        c5NewPort.id).2.config.ports = c5Store.config.ports ∧
    (disconnectExternalDevice (connectExternalDevice c5Store c9ConnectReq).2
        c5NewPort.id).2.config.routes = c5Store.config.routes :=
  connect_then_disconnect_restores c5Store c9ConnectReq c5NewPort
    (connectExternalDevice c5Store c9ConnectReq).2
    (by decide) (by decide) (by decide) (by decide) (by decide)

/-! ## C2: exclusivity conflicts fail with IllegalState and change nothing -/

/-- An index entry keyed by an exclusive-only candidate sink port forces the
    validation loop of `setAudioPatch` to report a conflict. -/
theorem exclusiveConflict_of_entry (routes : List AudioRoute)
    (sources : List AudioPortConfig) (mP : List (Int × Int)) (sp : Int)
    (kv : Int × Int) (hsp : sp ∈ patchSinkCandidates routes sources)
    (hne : sinkNonExclusiveAvailable routes sources sp = false)
    (hkv : kv ∈ mP) (hk : kv.1 = sp) :
    exclusiveConflict routes sources mP = true := by
  unfold exclusiveConflict
  rw [List.any_eq_true]
  refine ⟨sp, hsp, ?_⟩
  rw [hne]
  simp only [Bool.not_false, Bool.true_and]
  rw [List.any_eq_true]
  exact ⟨kv, hkv, decide_eq_true hk⟩

/-- C2: when a well-formed request reaches the exclusivity check (non-empty
    duplicate-free lists, all ids resolving, every sink port reachable) and
    some requested sink's owning port has only exclusive routes available
    while another current patch claims that port in the reverse index, then
    `setAudioPatch` fails with IllegalState and returns the store exactly as
    it was — in the update case the speculatively removed index entries are
    restored. -/
theorem setAudioPatch_exclusive_conflict_fails_cleanly (k : ModuleConstants)
    (s : ModuleState) (req : AudioPatch) (sinkCfg : AudioPortConfig)
    (p : AudioPatch)
    (hinv : patchIndexInv s)
    (h1 : req.sourcePortConfigIds.isEmpty = false)
    (h2 : all_unique req.sourcePortConfigIds = true)
    (h3 : req.sinkPortConfigIds.isEmpty = false)
    (h4 : all_unique req.sinkPortConfigIds = true)
    (h5 : (selectByIds s.config.portConfigs req.sourcePortConfigIds).2 = [])
    (h6 : (selectByIds s.config.portConfigs req.sinkPortConfigIds).2 = [])
    (h7 : ∀ c ∈ (selectByIds s.config.portConfigs req.sinkPortConfigIds).1,
      c.portId ∈ patchSinkCandidates s.config.routes
        (selectByIds s.config.portConfigs req.sourcePortConfigIds).1)
    (h8 : req.id ≠ 0 → (findById (·.id) s.config.patches req.id).isSome = true)
    (hsnkmem : sinkCfg ∈ (selectByIds s.config.portConfigs req.sinkPortConfigIds).1)
    (hexcl : sinkNonExclusiveAvailable s.config.routes
      (selectByIds s.config.portConfigs req.sourcePortConfigIds).1
      sinkCfg.portId = false)
    (hp : p ∈ s.config.patches) (hpne : p.id ≠ req.id)
    (hclaim : sinkCfg.portId ∈ patchClaimKeys s.config.portConfigs p) :
    setAudioPatch k s req = ⟨Except.error .illegalState, s, []⟩ := by
  obtain ⟨hl1, hl2⟩ := hinv p hp
  have hkey := hl2 _ hclaim
  rw [List.mem_map] at hkey
  obtain ⟨kv, hkvf, hfst⟩ := hkey
  rw [List.mem_filter] at hkvf
  obtain ⟨hkvmem, hkv2⟩ := hkvf
  have hkv2' : kv.2 = p.id := of_decide_eq_true hkv2
  have hsp := h7 sinkCfg hsnkmem
  have hconfRaw : exclusiveConflict s.config.routes
      (selectByIds s.config.portConfigs req.sourcePortConfigIds).1
      s.mPatches = true :=
    exclusiveConflict_of_entry _ _ _ _ kv hsp hexcl hkvmem hfst
  have hkvClean : kv ∈ cleanUpPatch s.mPatches req.id := by
    unfold cleanUpPatch erase_all_values
    rw [List.mem_filter]
    refine ⟨hkvmem, decide_eq_true ?_⟩
    rw [hkv2']
    simpa using hpne
  have hconfClean : exclusiveConflict s.config.routes
      (selectByIds s.config.portConfigs req.sourcePortConfigIds).1
      (cleanUpPatch s.mPatches req.id) = true :=
    exclusiveConflict_of_entry _ _ _ _ kv hsp hexcl hkvClean hfst
  have hall : ((selectByIds s.config.portConfigs req.sinkPortConfigIds).1.all
      fun sink => decide (sink.portId ∈ patchSinkCandidates s.config.routes
        (selectByIds s.config.portConfigs req.sourcePortConfigIds).1)) = true :=
    List.all_eq_true.mpr fun c hc => decide_eq_true (h7 c hc)
  by_cases hid : req.id = 0
  · simp only [setAudioPatch, h1, h2, h3, h4, Bool.not_true, Bool.false_eq_true,
      if_false, h5, h6, List.isEmpty_nil, Bool.not_false, hall, if_true, hid,
      ne_eq, not_true_eq_false, hconfRaw]
  · rcases Option.isSome_iff_exists.1 (h8 hid) with ⟨pp, hpp⟩
    simp only [setAudioPatch, h1, h2, h3, h4, Bool.not_true, Bool.false_eq_true,
      if_false, h5, h6, List.isEmpty_nil, Bool.not_false, hall, if_true,
      ne_eq, hid, not_false_eq_true, hpp, hconfClean]

/-- Store for the C2 witness: configs 1, 2, 3 on ports 101, 102, 103; the
    only routes to sink port 102 are exclusive, and the current patch 1
    (sources [3], sinks [2]) already claims port 102 in the reverse index. -/
def c2Store : ModuleState :=
  { config := { portConfigs := [cfgA, cfgB, cfgC]
                routes := [{ sourcePortIds := [101], sinkPortId := 102,
                             isExclusive := true },
                           { sourcePortIds := [103], sinkPortId := 102,
                             isExclusive := true }]
                patches := [{ id := 1, sourcePortConfigIds := [3],
                              sinkPortConfigIds := [2],
                              minimumStreamBufferSizeFrames := 16,
                              latenciesMs := [10] }]
                nextPatchId := 2 }
    mPatches := [(3, 1), (103, 1), (2, 1), (102, 1)] }

/-- Request conflicting with patch 1 over the exclusive sink port 102. -/
def c2Req : AudioPatch :=
  { id := 0, sourcePortConfigIds := [1], sinkPortConfigIds := [2] }

/-- Witness for C2 at a concrete input: the conflicting request fails with
    IllegalState and returns the store unchanged. -/
theorem setAudioPatch_exclusive_conflict_witness :
    setAudioPatch {} c2Store c2Req = ⟨Except.error .illegalState, c2Store, []⟩ :=
  setAudioPatch_exclusive_conflict_fails_cleanly {} c2Store c2Req cfgB
    { id := 1, sourcePortConfigIds := [3], sinkPortConfigIds := [2],
      minimumStreamBufferSizeFrames := 16, latenciesMs := [10] }
    (by decide) (by decide) (by decide) (by decide) (by decide) (by decide)
    (by decide) (by decide) (by decide) (by decide) (by decide) (by decide)
    (by decide) (by decide)

/-! ## C1: `setAudioPatch` and `resetAudioPatch` preserve the reverse-index
    invariant (lemma layer) -/

/-- Successful lookup yields a member carrying the requested id. -/
theorem findById_some {α : Type} (getId : α → Int) (xs : List α) (i : Int)
    (x : α) (h : findById getId xs i = some x) : x ∈ xs ∧ getId x = i := by
  induction xs with
  | nil => cases h
  | cons a as ih =>
    simp only [findById] at h
    by_cases ha : getId a = i
    · rw [if_pos ha] at h
      cases h
      exact ⟨List.mem_cons_self _ _, ha⟩
    · rw [if_neg ha] at h
      obtain ⟨hm, hid⟩ := ih h
      exact ⟨List.mem_cons_of_mem _ hm, hid⟩

/-- Every reverse-index entry registered for a patch maps to that patch's
    id. -/
theorem patchIndexEntries_snd (configs : List AudioPortConfig)
    (patch : AudioPatch) :
    ∀ kv ∈ patchIndexEntries configs patch, kv.2 = patch.id := by
  intro kv hkv
  unfold patchIndexEntries at hkv
  rw [List.mem_flatMap] at hkv
  obtain ⟨i, _, hkv⟩ := hkv
  cases hfind : findById (·.id) configs i with
  | none => rw [hfind] at hkv; cases hkv
  | some cfg =>
    rw [hfind] at hkv
    rcases List.mem_cons.1 hkv with rfl | hkv
    · rfl
    · by_cases hpne : cfg.portId ≠ i
      · rw [if_pos hpne] at hkv
        rcases List.mem_cons.1 hkv with rfl | hkv
        · rfl
        · cases hkv
      · rw [if_neg hpne] at hkv
        cases hkv

/-- Filtering the registered entries by any other patch id gives nothing. -/
theorem patchIndexEntries_filter_other (configs : List AudioPortConfig)
    (patch : AudioPatch) (q : Int) (hq : q ≠ patch.id) :
    ((patchIndexEntries configs patch).filter fun kv => decide (kv.2 = q)) = [] := by
  rw [List.filter_eq_nil_iff]
  intro kv hkv
  have := patchIndexEntries_snd configs patch kv hkv
  simp [this, hq.symm]

/-- Filtering the registered entries by the patch's own id keeps them all. -/
theorem patchIndexEntries_filter_self (configs : List AudioPortConfig)
    (patch : AudioPatch) :
    ((patchIndexEntries configs patch).filter fun kv => decide (kv.2 = patch.id)) =
      patchIndexEntries configs patch :=
  List.filter_eq_self.mpr fun kv hkv =>
    decide_eq_true (patchIndexEntries_snd configs patch kv hkv)

/-- When every referenced id resolves, the keys of the registered entries
    are, as a set, the claim's expected key set for the patch. -/
theorem patchIndexEntries_keys_sameElems (configs : List AudioPortConfig)
    (patch : AudioPatch)
    (hres : ∀ i ∈ patch.sourcePortConfigIds ++ patch.sinkPortConfigIds,
      (findById (·.id) configs i).isSome = true) :
    sameElems ((patchIndexEntries configs patch).map Prod.fst)
      (patchClaimKeys configs patch) := by
  constructor
  · intro a ha
    rw [List.mem_map] at ha
    obtain ⟨kv, hkv, rfl⟩ := ha
    unfold patchIndexEntries at hkv
    rw [List.mem_flatMap] at hkv
    obtain ⟨i, hi, hkv⟩ := hkv
    unfold patchClaimKeys
    cases hfind : findById (·.id) configs i with
    | none => rw [hfind] at hkv; cases hkv
    | some cfg =>
      rw [hfind] at hkv
      rcases List.mem_cons.1 hkv with rfl | hkv
      · exact List.mem_append_left _ hi
      · by_cases hpne : cfg.portId ≠ i
        · rw [if_pos hpne] at hkv
          rcases List.mem_cons.1 hkv with rfl | hkv
          · refine List.mem_append_right _ ?_
            rw [List.mem_filterMap]
            exact ⟨i, hi, by rw [hfind]; rfl⟩
          · cases hkv
        · rw [if_neg hpne] at hkv
          cases hkv
  · intro a ha
    unfold patchClaimKeys at ha
    rw [List.mem_map]
    rcases List.mem_append.1 ha with ha | ha
    · rcases Option.isSome_iff_exists.1 (hres a ha) with ⟨cfg, hfind⟩
      refine ⟨(a, patch.id), ?_, rfl⟩
      unfold patchIndexEntries
      rw [List.mem_flatMap]
      refine ⟨a, ha, ?_⟩
      rw [hfind]
      exact List.mem_cons_self _ _
    · rw [List.mem_filterMap] at ha
      obtain ⟨i, hi, hmap⟩ := ha
      cases hfind : findById (·.id) configs i with
      | none => rw [hfind] at hmap; cases hmap
      | some cfg =>
        rw [hfind] at hmap
        cases hmap
        by_cases hpe : cfg.portId = i
        · refine ⟨(cfg.portId, patch.id), ?_, rfl⟩
          unfold patchIndexEntries
          rw [List.mem_flatMap]
          refine ⟨i, hi, ?_⟩
          rw [hfind, hpe]
          exact List.mem_cons_self _ _
        · refine ⟨(cfg.portId, patch.id), ?_, rfl⟩
          unfold patchIndexEntries
          rw [List.mem_flatMap]
          refine ⟨i, hi, ?_⟩
          rw [hfind]
          refine List.mem_cons_of_mem _ ?_
          rw [if_pos hpe]
          exact List.mem_cons_self _ _

/-- Replacing an element by one carrying the same id leaves the id image of
    the list unchanged. -/
theorem replaceFirstById_map_getId {α : Type} (getId : α → Int) (xs : List α)
    (i : Int) (y : α) (hy : getId y = i) :
    (replaceFirstById getId xs i y).map getId = xs.map getId := by
  induction xs with
  | nil => rfl
  | cons x t ih =>
    simp only [replaceFirstById]
    by_cases hx : getId x = i
    · rw [if_pos hx]
      simp [hy, hx]
    · rw [if_neg hx]
      simp [ih]

/-- With unique ids, a member of the replaced list is the replacement or an
    untouched element with a different id. -/
theorem replaceFirstById_mem {α : Type} (getId : α → Int) (xs : List α)
    (i : Int) (y : α) (hnd : (xs.map getId).Nodup) :
    ∀ x ∈ replaceFirstById getId xs i y, x = y ∨ (x ∈ xs ∧ getId x ≠ i) := by
  induction xs with
  | nil => intro x hx; cases hx
  | cons a t ih =>
    simp only [List.map_cons, List.nodup_cons] at hnd
    obtain ⟨hna, hnt⟩ := hnd
    intro x hx
    simp only [replaceFirstById] at hx
    by_cases ha : getId a = i
    · rw [if_pos ha] at hx
      rcases List.mem_cons.1 hx with rfl | hx
      · exact Or.inl rfl
      · refine Or.inr ⟨List.mem_cons_of_mem _ hx, ?_⟩
        intro hxi
        exact hna (ha ▸ hxi ▸ List.mem_map_of_mem getId hx)
    · rw [if_neg ha] at hx
      rcases List.mem_cons.1 hx with rfl | hx
      · exact Or.inr ⟨List.mem_cons_self _ _, ha⟩
      · rcases ih hnt x hx with h | ⟨hm, hne⟩
        · exact Or.inl h
        · exact Or.inr ⟨List.mem_cons_of_mem _ hm, hne⟩

/-- With unique ids, a member of the erased list is an untouched element
    with a different id. -/
theorem eraseFirstById_mem {α : Type} (getId : α → Int) (xs : List α)
    (i : Int) (hnd : (xs.map getId).Nodup) :
    ∀ x ∈ eraseFirstById getId xs i, x ∈ xs ∧ getId x ≠ i := by
  induction xs with
  | nil => intro x hx; cases hx
  | cons a t ih =>
    simp only [List.map_cons, List.nodup_cons] at hnd
    obtain ⟨hna, hnt⟩ := hnd
    intro x hx
    simp only [eraseFirstById] at hx
    by_cases ha : getId a = i
    · rw [if_pos ha] at hx
      refine ⟨List.mem_cons_of_mem _ hx, ?_⟩
      intro hxi
      exact hna (ha ▸ hxi ▸ List.mem_map_of_mem getId hx)
    · rw [if_neg ha] at hx
      rcases List.mem_cons.1 hx with rfl | hx
      · exact ⟨List.mem_cons_self _ _, ha⟩
      · obtain ⟨hm, hne⟩ := ih hnt x hx
        exact ⟨List.mem_cons_of_mem _ hm, hne⟩

/-- The id image of the erased list is a sublist of the original image. -/
theorem eraseFirstById_map_sublist {α : Type} (getId : α → Int) (xs : List α)
    (i : Int) :
    ((eraseFirstById getId xs i).map getId).Sublist (xs.map getId) := by
  induction xs with
  | nil => simp [eraseFirstById]
  | cons a t ih =>
    simp only [eraseFirstById]
    by_cases ha : getId a = i
    · rw [if_pos ha]
      simpa using List.sublist_cons_self (getId a) (t.map getId)
    · rw [if_neg ha]
      simpa using ih.cons₂ (getId a)

/-- Removing one patch's entries leaves no entry mapped to that patch. -/
theorem cleanUpPatch_filter_self (mP : List (Int × Int)) (i : Int) :
    ((cleanUpPatch mP i).filter fun kv => decide (kv.2 = i)) = [] := by
  rw [List.filter_eq_nil_iff]
  intro kv hkv
  unfold cleanUpPatch erase_all_values at hkv
  rw [List.mem_filter] at hkv
  have := of_decide_eq_true hkv.2
  simp only [List.mem_singleton] at this
  simp [this]

/-- Removing one patch's entries does not disturb the entries of any other
    patch. -/
theorem cleanUpPatch_filter_other (mP : List (Int × Int)) (i q : Int)
    (hq : q ≠ i) :
    ((cleanUpPatch mP i).filter fun kv => decide (kv.2 = q)) =
      mP.filter fun kv => decide (kv.2 = q) := by
  unfold cleanUpPatch erase_all_values
  rw [List.filter_filter]
  apply List.filter_congr
  intro kv _
  by_cases h2 : kv.2 = q
  · simp [h2, hq]
  · simp [h2]

/-- An empty missing-id list from `selectByIds` means every queried id
    resolves. -/
theorem selectByIds_resolves (configs : List AudioPortConfig) (ids : List Int)
    (h : (selectByIds configs ids).2 = []) :
    ∀ i ∈ ids, (findById (·.id) configs i).isSome = true := by
  rw [selectByIds_missing, List.filter_eq_nil_iff] at h
  intro i hi
  have hni := h i hi
  cases hfind : findById (·.id) configs i with
  | none => rw [hfind] at hni; simp at hni
  | some c => rfl


theorem registerPatch_append_preserves (s : ModuleState) (np : AudioPatch)
    (hnd : (s.config.patches.map (·.id)).Nodup)
    (hvals : ∀ kv ∈ s.mPatches, kv.2 < s.config.nextPatchId)
    (hids : ∀ p ∈ s.config.patches, p.id < s.config.nextPatchId)
    (hrefs : ∀ p ∈ s.config.patches,
      ∀ i ∈ p.sourcePortConfigIds ++ p.sinkPortConfigIds,
        (findById (·.id) s.config.portConfigs i).isSome = true)
    (hinv : patchIndexInv s)
    (hnp : np.id = s.config.nextPatchId)
    (hnpres : ∀ i ∈ np.sourcePortConfigIds ++ np.sinkPortConfigIds,
      (findById (·.id) s.config.portConfigs i).isSome = true) :
    storeWF { s with
      config := { s.config with
        patches := s.config.patches ++ [np]
        nextPatchId := s.config.nextPatchId + 1 }
      mPatches := registerPatch s.config.portConfigs s.mPatches np } ∧
    patchIndexInv { s with
      config := { s.config with
        patches := s.config.patches ++ [np]
        nextPatchId := s.config.nextPatchId + 1 }
      mPatches := registerPatch s.config.portConfigs s.mPatches np } := by
  refine ⟨⟨?_, ?_, ?_, ?_⟩, ?_⟩
  · dsimp only
    rw [List.map_append, List.nodup_append]
    refine ⟨hnd, List.nodup_singleton _, ?_⟩
    intro a ha hb
    rw [List.mem_map] at ha
    obtain ⟨p, hp, rfl⟩ := ha
    simp only [List.map_cons, List.map_nil, List.mem_singleton] at hb
    have := hids p hp
    rw [hb, hnp] at this
    omega
  · dsimp only
    unfold registerPatch
    intro kv hkv
    rcases List.mem_append.1 hkv with h | h
    · have := hvals kv h
      omega
    · have := patchIndexEntries_snd _ _ kv h
      rw [this, hnp]
      omega
  · dsimp only
    intro p hp
    rcases List.mem_append.1 hp with h | h
    · have := hids p h
      omega
    · rw [List.mem_singleton.1 h, hnp]
      omega
  · dsimp only
    intro p hp
    rcases List.mem_append.1 hp with h | h
    · exact hrefs p h
    · rw [List.mem_singleton.1 h]
      exact hnpres
  · intro p hp
    dsimp only at hp ⊢
    unfold registerPatch
    rcases List.mem_append.1 hp with h | h
    · have hne : p.id ≠ np.id := by
        have := hids p h
        rw [hnp]
        omega
      rw [List.filter_append, patchIndexEntries_filter_other _ _ _ hne,
        List.append_nil]
      exact hinv p h
    · rw [List.mem_singleton.1 h]
      have hmp : (s.mPatches.filter fun kv => decide (kv.2 = np.id)) = [] := by
        rw [List.filter_eq_nil_iff]
        intro kv hkv
        have := hvals kv hkv
        rw [hnp]
        simp only [decide_eq_true_eq]
        omega
      rw [List.filter_append, hmp, List.nil_append,
        patchIndexEntries_filter_self]
      exact patchIndexEntries_keys_sameElems _ _ hnpres

theorem registerPatch_replace_preserves (s : ModuleState) (np pp : AudioPatch)
    (hnd : (s.config.patches.map (·.id)).Nodup)
    (hvals : ∀ kv ∈ s.mPatches, kv.2 < s.config.nextPatchId)
    (hids : ∀ p ∈ s.config.patches, p.id < s.config.nextPatchId)
    (hrefs : ∀ p ∈ s.config.patches,
      ∀ i ∈ p.sourcePortConfigIds ++ p.sinkPortConfigIds,
        (findById (·.id) s.config.portConfigs i).isSome = true)
    (hinv : patchIndexInv s)
    (hpp : findById (·.id) s.config.patches np.id = some pp)
    (hnpres : ∀ i ∈ np.sourcePortConfigIds ++ np.sinkPortConfigIds,
      (findById (·.id) s.config.portConfigs i).isSome = true) :
    storeWF { s with
      config := { s.config with
        patches := replaceFirstById (·.id) s.config.patches np.id np }
      mPatches := registerPatch s.config.portConfigs
        (cleanUpPatch s.mPatches np.id) np } ∧
    patchIndexInv { s with
      config := { s.config with
        patches := replaceFirstById (·.id) s.config.patches np.id np }
      mPatches := registerPatch s.config.portConfigs
        (cleanUpPatch s.mPatches np.id) np } := by
  obtain ⟨hppmem, hppid⟩ := findById_some _ _ _ _ hpp
  refine ⟨⟨?_, ?_, ?_, ?_⟩, ?_⟩
  · dsimp only
    rw [replaceFirstById_map_getId _ _ _ _ rfl]
    exact hnd
  · dsimp only
    unfold registerPatch
    intro kv hkv
    rcases List.mem_append.1 hkv with h | h
    · unfold cleanUpPatch erase_all_values at h
      exact hvals kv (List.mem_filter.1 h).1
    · have := patchIndexEntries_snd _ _ kv h
      rw [this, ← hppid]
      exact hids pp hppmem
  · dsimp only
    intro p hp
    rcases replaceFirstById_mem _ _ _ _ hnd p hp with rfl | ⟨hm, _⟩
    · rw [← hppid]
      exact hids pp hppmem
    · exact hids p hm
  · dsimp only
    intro p hp
    rcases replaceFirstById_mem _ _ _ _ hnd p hp with rfl | ⟨hm, _⟩
    · exact hnpres
    · exact hrefs p hm
  · intro p hp
    dsimp only at hp ⊢
    unfold registerPatch
    rcases replaceFirstById_mem _ _ _ _ hnd p hp with rfl | ⟨hm, hne⟩
    · rw [List.filter_append, cleanUpPatch_filter_self, List.nil_append,
        patchIndexEntries_filter_self]
      exact patchIndexEntries_keys_sameElems _ _ hnpres
    · rw [List.filter_append, cleanUpPatch_filter_other _ _ _ hne,
        patchIndexEntries_filter_other _ _ _ hne, List.append_nil]
      exact hinv p hm

theorem setAudioPatch_preserves_inv (k : ModuleConstants) (s : ModuleState)
    (req : AudioPatch) (hwf : storeWF s) (hinv : patchIndexInv s) :
    storeWF (setAudioPatch k s req).state ∧
      patchIndexInv (setAudioPatch k s req).state := by
  obtain ⟨hnd, hvals, hids, hrefs⟩ := hwf
  have triv : storeWF s ∧ patchIndexInv s := ⟨⟨hnd, hvals, hids, hrefs⟩, hinv⟩
  cases c1 : req.sourcePortConfigIds.isEmpty with
  | true => simp only [setAudioPatch, c1, if_true]; exact triv
  | false =>
  cases c2 : all_unique req.sourcePortConfigIds with
  | false => simp only [setAudioPatch, c1, c2, Bool.false_eq_true, if_false,
      Bool.not_false, if_true]; exact triv
  | true =>
  cases c3 : req.sinkPortConfigIds.isEmpty with
  | true => simp only [setAudioPatch, c1, c2, c3, Bool.false_eq_true, if_false,
      Bool.not_true, if_true]; exact triv
  | false =>
  cases c4 : all_unique req.sinkPortConfigIds with
  | false => simp only [setAudioPatch, c1, c2, c3, c4, Bool.false_eq_true,
      if_false, Bool.not_true, Bool.not_false, if_true]; exact triv
  | true =>
  cases c5 : (selectByIds s.config.portConfigs req.sourcePortConfigIds).2.isEmpty with
  | false => simp only [setAudioPatch, c1, c2, c3, c4, c5, Bool.false_eq_true,
      if_false, Bool.not_true, Bool.not_false, if_true]; exact triv
  | true =>
  cases c6 : (selectByIds s.config.portConfigs req.sinkPortConfigIds).2.isEmpty with
  | false => simp only [setAudioPatch, c1, c2, c3, c4, c5, c6, Bool.false_eq_true,
      if_false, Bool.not_true, Bool.not_false, if_true]; exact triv
  | true =>
  cases c7 : ((selectByIds s.config.portConfigs req.sinkPortConfigIds).1.all
      fun sink => decide (sink.portId ∈ patchSinkCandidates s.config.routes
        (selectByIds s.config.portConfigs req.sourcePortConfigIds).1)) with
  | false =>
    simp only [setAudioPatch, c1, c2, c3, c4, c5, c6, c7,
      Bool.false_eq_true, if_false, Bool.not_true, Bool.not_false, if_true]
    exact triv
  | true =>
  have hsrcres := selectByIds_resolves s.config.portConfigs
    req.sourcePortConfigIds (List.isEmpty_iff.1 c5)
  have hsnkres := selectByIds_resolves s.config.portConfigs
    req.sinkPortConfigIds (List.isEmpty_iff.1 c6)
  by_cases hid : req.id = 0
  · -- creation path
    cases c8 : exclusiveConflict s.config.routes
        (selectByIds s.config.portConfigs req.sourcePortConfigIds).1 s.mPatches with
    | true =>
      simp only [setAudioPatch, c1, c2, c3, c4, c5, c6, c7, c8, hid,
        Bool.false_eq_true, if_false, Bool.not_true, Bool.not_false, if_true,
        ne_eq, not_true_eq_false]
      exact triv
    | false =>
      simp only [setAudioPatch, c1, c2, c3, c4, c5, c6, c7, c8, hid,
        Bool.false_eq_true, if_false, Bool.not_true, Bool.not_false, if_true,
        ne_eq, not_true_eq_false]
      exact registerPatch_append_preserves s _ hnd hvals hids hrefs hinv rfl
        (fun i hi => by
          rcases List.mem_append.1 hi with h | h
          · exact hsrcres i h
          · exact hsnkres i h)
  · -- update path
    cases hpp : findById (·.id) s.config.patches req.id with
    | none =>
      simp only [setAudioPatch, c1, c2, c3, c4, c5, c6, c7, hpp,
        Bool.false_eq_true, if_false, Bool.not_true, Bool.not_false, if_true,
        ne_eq, hid, not_false_eq_true]
      exact triv
    | some pp =>
      cases c8 : exclusiveConflict s.config.routes
          (selectByIds s.config.portConfigs req.sourcePortConfigIds).1
          (cleanUpPatch s.mPatches req.id) with
      | true =>
        simp only [setAudioPatch, c1, c2, c3, c4, c5, c6, c7, c8, hpp,
          Bool.false_eq_true, if_false, Bool.not_true, Bool.not_false, if_true,
          ne_eq, hid, not_false_eq_true]
        exact triv
      | false =>
        simp only [setAudioPatch, c1, c2, c3, c4, c5, c6, c7, c8, hpp,
          Bool.false_eq_true, if_false, Bool.not_true, Bool.not_false, if_true,
          ne_eq, hid, not_false_eq_true]
        exact registerPatch_replace_preserves s
          { req with
            minimumStreamBufferSizeFrames := k.kMinimumStreamBufferSizeFrames
            latenciesMs :=
              List.replicate req.sinkPortConfigIds.length k.kLatencyMs }
          pp hnd hvals hids hrefs hinv hpp
          (fun i hi => by
            rcases List.mem_append.1 hi with h | h
            · exact hsrcres i h
            · exact hsnkres i h)

theorem resetAudioPatch_preserves_inv (s : ModuleState) (patchId : Int)
    (hwf : storeWF s) (hinv : patchIndexInv s) :
    storeWF (resetAudioPatch s patchId).2 ∧
      patchIndexInv (resetAudioPatch s patchId).2 := by
  obtain ⟨hnd, hvals, hids, hrefs⟩ := hwf
  cases hpp : findById (·.id) s.config.patches patchId with
  | none =>
    simp only [resetAudioPatch, hpp]
    exact ⟨⟨hnd, hvals, hids, hrefs⟩, hinv⟩
  | some pp =>
    obtain ⟨hppmem, hppid⟩ := findById_some _ _ _ _ hpp
    simp only [resetAudioPatch, hpp]
    refine ⟨⟨?_, ?_, ?_, ?_⟩, ?_⟩
    · exact (eraseFirstById_map_sublist (·.id) s.config.patches patchId).nodup hnd
    · intro kv hkv
      unfold cleanUpPatch erase_all_values at hkv
      exact hvals kv (List.mem_filter.1 hkv).1
    · intro p hp
      exact hids p (eraseFirstById_mem _ _ _ hnd p hp).1
    · intro p hp
      exact hrefs p (eraseFirstById_mem _ _ _ hnd p hp).1
    · intro p hp
      dsimp only at hp ⊢
      obtain ⟨hm, hne⟩ := eraseFirstById_mem _ _ _ hnd p hp
      rw [cleanUpPatch_filter_other s.mPatches pp.id p.id (by rw [hppid]; exact hne)]
      exact hinv p hm

/-- C1 as amended: from any store satisfying the basic well-formedness and
    the reverse-index invariant, both `setAudioPatch` (on any request and
    any outcome) and `resetAudioPatch` preserve well-formedness and the
    invariant, so the index mirrors the patch list in every state reachable
    through these two operations.  (`cleanUpPatches` does not preserve the
    invariant, as the separate counterexample shows.) -/
theorem setAudioPatch_resetAudioPatch_preserve_patchIndexInv
    (k : ModuleConstants) (s : ModuleState) (req : AudioPatch) (patchId : Int)
    (hwf : storeWF s) (hinv : patchIndexInv s) :
    (storeWF (setAudioPatch k s req).state ∧
      patchIndexInv (setAudioPatch k s req).state) ∧
    (storeWF (resetAudioPatch s patchId).2 ∧
      patchIndexInv (resetAudioPatch s patchId).2) :=
  ⟨setAudioPatch_preserves_inv k s req hwf hinv,
   resetAudioPatch_preserves_inv s patchId hwf hinv⟩

/-- Witness for the amended C1 theorem at a concrete input: the store
    `c2Store` satisfies the invariant, and it is preserved across a
    `setAudioPatch` call and a `resetAudioPatch` call. -/
theorem patch_ops_preserve_patchIndexInv_witness :
    (storeWF (setAudioPatch {} c2Store c2Req).state ∧
      patchIndexInv (setAudioPatch {} c2Store c2Req).state) ∧
    (storeWF (resetAudioPatch c2Store 1).2 ∧
      patchIndexInv (resetAudioPatch c2Store 1).2) :=
  setAudioPatch_resetAudioPatch_preserve_patchIndexInv {} c2Store c2Req 1
    (by decide) (by decide)

/-! ## C4: `setAudioPortConfig` negotiation outcome -/

/-- Stated from the claim's words (C4): the format against which supplied
    channel mask and sample rate are judged — the requested format when it
    is supplied and supported, otherwise the seed's format. -/
def effectiveFormat (port : AudioPort) (seed req : AudioPortConfig) :
    AudioFormatDescription :=
  match req.format with
  | some f => if (findAudioProfile port f).isSome then f else seed.format.getD {}
  | Option.none => seed.format.getD {}

/-- Stated from the claim's words (C4): every supplied field is valid for
    the port — supplied flags equal the port's flags, a supplied format is
    among the port's profiles, and a supplied channel mask or sample rate is
    supported by the port's profile for the effective format. -/
def suppliedFieldsValid (port : AudioPort) (seed req : AudioPortConfig) : Bool :=
  (req.flags.all fun f => decide (f = port.flags)) &&
  (req.format.all fun f => (findAudioProfile port f).isSome) &&
  (match findAudioProfile port (effectiveFormat port seed req) with
   | some prof =>
     (req.channelMask.all fun cm => decide (cm ∈ prof.channelMasks)) &&
     (req.sampleRate.all fun sr => decide (sr ∈ prof.sampleRates))
   | Option.none => req.channelMask.isNone && req.sampleRate.isNone)

/-- Stated from the claim's words (C4): all of flags, format, channel mask
    and sample rate are supplied. -/
def requestFullySpecified (req : AudioPortConfig) : Bool :=
  req.flags.isSome && req.format.isSome &&
    req.channelMask.isSome && req.sampleRate.isSome

/-- Stated from the claim's words (C4): the request's resolved target — the
    owning port together with the existing config when the request updates
    one. -/
def requestTarget (s : ModuleState) (req : AudioPortConfig) :
    Option (AudioPort × Option AudioPortConfig) :=
  if req.id ≠ 0 then
    match findById (·.id) s.config.portConfigs req.id with
    | some e =>
      match findById (·.id) s.config.ports e.portId with
      | some port => some (port, some e)
      | Option.none => Option.none
    | Option.none => Option.none
  else if req.portId = 0 then Option.none
  else
    match findById (·.id) s.config.ports req.portId with
    | some port => some (port, Option.none)
    | Option.none => Option.none

/-- Stated from the claim's words (C4): the starting point of the suggested
    config — the existing config when updating, a synthesized default
    otherwise. -/
def requestSeed (port : AudioPort) (existing : Option AudioPortConfig) :
    Option AudioPortConfig :=
  match existing with
  | some e => some e
  | Option.none => generateDefaultPortConfig port

theorem formatNegotiation_fst_getD (port : AudioPort) (seed req : AudioPortConfig) :
    (formatNegotiation port seed req).1.getD {} = effectiveFormat port seed req := by
  unfold formatNegotiation effectiveFormat
  cases req.format with
  | none => rfl
  | some f =>
    by_cases hf : (findAudioProfile port f).isSome = true
    · simp [hf]
    · simp only [Bool.not_eq_true] at hf
      simp [hf]

theorem suppliedFieldsValid_decomp (port : AudioPort) (seed req : AudioPortConfig)
    (prof : AudioProfile)
    (hprof : findAudioProfile port ((formatNegotiation port seed req).1.getD {}) =
      some prof) :
    suppliedFieldsValid port seed req =
      (flagsValidB port req && (formatNegotiation port seed req).2 &&
        (channelMaskNegotiation prof seed req).2 &&
        (sampleRateNegotiation prof seed req).2) := by
  rw [formatNegotiation_fst_getD] at hprof
  unfold suppliedFieldsValid
  rw [hprof]
  unfold flagsValidB formatNegotiation channelMaskNegotiation sampleRateNegotiation
  cases req.flags <;> cases hfm : req.format <;>
    cases req.channelMask <;> cases req.sampleRate <;>
    simp [Option.all] <;> split_ifs <;> simp_all

theorem withTarget_ok (s : ModuleState) (req : AudioPortConfig)
    (existing : Option AudioPortConfig) (sugg : AudioPortConfig)
    (applied : Bool) (s' : ModuleState)
    (h : setAudioPortConfigWithTarget s req existing =
      (Except.ok (sugg, applied), s')) :
    ∃ port seed,
      (match existing with
        | some e => e.portId
        | Option.none => req.portId) ≠ 0 ∧
      findById (·.id) s.config.ports
        (match existing with
          | some e => e.portId
          | Option.none => req.portId) = some port ∧
      requestSeed port existing = some seed ∧
      ((existing = Option.none →
         ((applied = true) ↔ (suppliedFieldsValid port seed req = true ∧
           requestFullySpecified req = true)) ∧
         (applied = true → sugg.id = s.config.nextPortId ∧
           s' = { s with config := { s.config with
             portConfigs := s.config.portConfigs ++ [sugg]
             nextPortId := s.config.nextPortId + 1 } }) ∧
         (applied = false → s' = s)) ∧
       (∀ e0, existing = some e0 →
         ((applied = true) ↔ suppliedFieldsValid port seed req = true) ∧
         (applied = true → sugg.id = e0.id ∧
           s' = { s with config := { s.config with
             portConfigs :=
               replaceFirstById (·.id) s.config.portConfigs req.id sugg } }) ∧
         (applied = false → s' = s))) := by
  cases existing with
  | none =>
    simp only [setAudioPortConfigWithTarget] at h
    by_cases hp0 : req.portId = 0
    · rw [if_pos hp0] at h
      cases h
    · rw [if_neg hp0] at h
      cases hfp : findById (·.id) s.config.ports req.portId with
      | none => simp only [hfp] at h; cases h
      | some port =>
        simp only [hfp] at h
        cases hgen : generateDefaultPortConfig port with
        | none => simp only [hgen] at h; cases h
        | some seed =>
          simp only [hgen] at h
          cases hprof : findAudioProfile port
              ((formatNegotiation port seed req).1.getD {}) with
          | none => simp only [hprof] at h; cases h
          | some prof =>
            simp only [hprof] at h
            refine ⟨port, seed, hp0, rfl, by simp [requestSeed, hgen], ?_, ?_⟩
            · intro _
              split at h
              next hdec =>
                cases h
                obtain ⟨hv, hf⟩ := Bool.and_eq_true_iff.1 hdec
                refine ⟨?_, fun _ => ⟨rfl, rfl⟩, ?_⟩
                · apply iff_of_true rfl
                  constructor
                  · rw [suppliedFieldsValid_decomp port seed req prof hprof]
                    exact hv
                  · unfold requestFullySpecified
                    exact hf
                · intro hfalse
                  cases hfalse
              next hdec =>
                cases h
                rw [Bool.not_eq_true, Bool.and_eq_false_iff] at hdec
                refine ⟨?_, ?_, fun _ => rfl⟩
                · apply iff_of_false (by simp)
                  rw [suppliedFieldsValid_decomp port seed req prof hprof]
                  unfold requestFullySpecified
                  rintro ⟨hv, hf⟩
                  rcases hdec with hdec | hdec
                  · rw [hv] at hdec
                    cases hdec
                  · rw [hf] at hdec
                    cases hdec
                · intro htrue
                  cases htrue
            · intro e0 he
              cases he
  | some e0 =>
    simp only [setAudioPortConfigWithTarget] at h
    by_cases hp0 : e0.portId = 0
    · rw [if_pos hp0] at h
      cases h
    · rw [if_neg hp0] at h
      cases hfp : findById (·.id) s.config.ports e0.portId with
      | none => simp only [hfp] at h; cases h
      | some port =>
        simp only [hfp] at h
        cases hprof : findAudioProfile port
            ((formatNegotiation port e0 req).1.getD {}) with
        | none => simp only [hprof] at h; cases h
        | some prof =>
          simp only [hprof] at h
          refine ⟨port, e0, hp0, rfl, rfl, ?_, ?_⟩
          · intro hnone
            cases hnone
          intro e1 he
          cases he
          split at h
          next hdec =>
            cases h
            refine ⟨?_, fun _ => ⟨rfl, rfl⟩, ?_⟩
            · apply iff_of_true rfl
              rw [suppliedFieldsValid_decomp port e0 req prof hprof]
              exact hdec
            · intro hfalse
              cases hfalse
          next hdec =>
            cases h
            rw [Bool.not_eq_true] at hdec
            refine ⟨?_, ?_, fun _ => rfl⟩
            · apply iff_of_false (by simp)
              rw [suppliedFieldsValid_decomp port e0 req prof hprof]
              intro hv
              rw [hv] at hdec
              cases hdec
            · intro htrue
              cases htrue


theorem withTarget_error (s : ModuleState) (req : AudioPortConfig)
    (existing : Option AudioPortConfig) (e : ExCode) (s' : ModuleState)
    (h : setAudioPortConfigWithTarget s req existing =
      (Except.error e, s')) : s' = s := by
  cases existing with
  | none =>
    simp only [setAudioPortConfigWithTarget] at h
    by_cases hp0 : req.portId = 0
    · rw [if_pos hp0] at h
      cases h
      rfl
    · rw [if_neg hp0] at h
      cases hfp : findById (·.id) s.config.ports req.portId with
      | none =>
        simp only [hfp] at h
        cases h
        rfl
      | some port =>
        simp only [hfp] at h
        cases hgen : generateDefaultPortConfig port with
        | none =>
          simp only [hgen] at h
          cases h
          rfl
        | some seed =>
          simp only [hgen] at h
          cases hprof : findAudioProfile port
              ((formatNegotiation port seed req).1.getD {}) with
          | none =>
            simp only [hprof] at h
            cases h
            rfl
          | some prof =>
            simp only [hprof] at h
            split at h <;> cases h
  | some e0 =>
    simp only [setAudioPortConfigWithTarget] at h
    by_cases hp0 : e0.portId = 0
    · rw [if_pos hp0] at h
      cases h
      rfl
    · rw [if_neg hp0] at h
      cases hfp : findById (·.id) s.config.ports e0.portId with
      | none =>
        simp only [hfp] at h
        cases h
        rfl
      | some port =>
        simp only [hfp] at h
        cases hprof : findAudioProfile port
            ((formatNegotiation port e0 req).1.getD {}) with
        | none =>
          simp only [hprof] at h
          cases h
          rfl
        | some prof =>
          simp only [hprof] at h
          split at h <;> cases h

/-- C4 as amended: whenever `setAudioPortConfig` completes successfully, a
    new-config request (id = 0) is persisted — fresh id, appended,
    applied = true — exactly when every supplied field is valid and all of
    flags, format, channel mask and sample rate are supplied; an
    existing-config request is updated in place exactly when every supplied
    field is valid; otherwise nothing changes and the suggestion is still
    returned with applied = false.  Requests that fail to resolve the
    target, cannot seed a default config, or whose seeded format is no
    longer among the port's profiles return IllegalArgument with the store
    unchanged (and no suggestion). -/
theorem setAudioPortConfig_characterization (s : ModuleState)
    (req : AudioPortConfig) :
    (∀ e s', setAudioPortConfig s req = (Except.error e, s') → s' = s) ∧
    (∀ sugg applied s',
      setAudioPortConfig s req = (Except.ok (sugg, applied), s') →
      ∃ port existing seed,
        requestTarget s req = some (port, existing) ∧
        requestSeed port existing = some seed ∧
        ((req.id = 0 →
           ((applied = true) ↔ (suppliedFieldsValid port seed req = true ∧
             requestFullySpecified req = true)) ∧
           (applied = true → sugg.id = s.config.nextPortId ∧
             s' = { s with config := { s.config with
               portConfigs := s.config.portConfigs ++ [sugg]
               nextPortId := s.config.nextPortId + 1 } }) ∧
           (applied = false → s' = s)) ∧
         (req.id ≠ 0 →
           ((applied = true) ↔ suppliedFieldsValid port seed req = true) ∧
           (applied = true → sugg.id = req.id ∧
             s' = { s with config := { s.config with
               portConfigs :=
                 replaceFirstById (·.id) s.config.portConfigs req.id sugg } }) ∧
           (applied = false → s' = s)))) := by
  constructor
  · intro e s' h
    unfold setAudioPortConfig at h
    by_cases hid : req.id = 0
    · rw [if_neg (fun hne => hne hid)] at h
      exact withTarget_error s req Option.none e s' h
    · rw [if_pos hid] at h
      cases hfind : findById (·.id) s.config.portConfigs req.id with
      | none =>
        simp only [hfind] at h
        cases h
        rfl
      | some e0 =>
        simp only [hfind] at h
        exact withTarget_error s req (some e0) e s' h
  · intro sugg applied s' h
    unfold setAudioPortConfig at h
    by_cases hid : req.id = 0
    · rw [if_neg (fun hne => hne hid)] at h
      obtain ⟨port, seed, hp0, hfp, hseed, hnone, _⟩ :=
        withTarget_ok s req Option.none sugg applied s' h
      refine ⟨port, Option.none, seed, ?_, hseed, ?_, ?_⟩
      · unfold requestTarget
        rw [if_neg (fun hne => hne hid), if_neg hp0,
          show findById (·.id) s.config.ports req.portId = some port from hfp]
      · intro _
        exact hnone rfl
      · intro hne
        exact absurd hid hne
    · rw [if_pos hid] at h
      cases hfind : findById (·.id) s.config.portConfigs req.id with
      | none => simp only [hfind] at h; cases h
      | some e0 =>
        simp only [hfind] at h
        obtain ⟨port, seed, hp0, hfp, hseed, _, hsome⟩ :=
          withTarget_ok s req (some e0) sugg applied s' h
        obtain ⟨hiff, happ, hnapp⟩ := hsome e0 rfl
        have he0id : e0.id = req.id := (findById_some _ _ _ _ hfind).2
        refine ⟨port, some e0, seed, ?_, hseed, ?_, ?_⟩
        · simp only [requestTarget, if_pos hid, hfind]
          rw [show findById (·.id) s.config.ports e0.portId = some port from hfp]
        · intro h0
          exact absurd h0 hid
        · intro _
          refine ⟨hiff, ?_, hnapp⟩
          intro ha
          exact ⟨by rw [(happ ha).1, he0id], (happ ha).2⟩

/-- Output mix port 1 for the C4 counterexample store. -/
def c4Port : AudioPort :=
  { id := 1, profiles := [c9Profile], flags := .output 0, ext := .mix {} }

/-- Existing config 5 on port 1 whose stored format (32-bit float) is no
    longer among the port's profiles. -/
def c4StaleCfg : AudioPortConfig :=
  { id := 5, portId := 1, format := some { type := .pcm, pcm := .FLOAT_32_BIT }
    channelMask := some (.layoutMask 3), sampleRate := some 48000
    flags := some (.output 0) }

/-- Store for the C4 counterexample. -/
def c4Store : ModuleState :=
  { config := { ports := [c4Port], portConfigs := [c4StaleCfg] } }

/-- Update request for config 5 supplying no fields at all. -/
def c4Req : AudioPortConfig := { id := 5 }

/-- C4 counterexample: the request targets an existing config and supplies
    no fields, so every supplied field is (vacuously) valid — the claim then
    demands an in-place update with applied = true, or at least
    applied = false with the suggestion returned.  The code instead fails
    hard with IllegalArgument (the seeded format is no longer among the
    port's profiles) and returns no suggestion. -/
theorem setAudioPortConfig_stale_format_errors :
    requestTarget c4Store c4Req = some (c4Port, some c4StaleCfg) ∧
    requestSeed c4Port (some c4StaleCfg) = some c4StaleCfg ∧
    suppliedFieldsValid c4Port c4StaleCfg c4Req = true ∧
    c4Req.id ≠ 0 ∧
    setAudioPortConfig c4Store c4Req = (Except.error .illegalArgument, c4Store) := by
  decide

/-- Mix port for the C4 witness store. -/
def c4wPort : AudioPort :=
  { id := 1, profiles := [c9Profile], flags := .output 0, ext := .mix {} }

/-- Store for the C4 witness: one port, no configs, next id 7. -/
def c4wStore : ModuleState :=
  { config := { ports := [c4wPort], nextPortId := 7 } }

/-- Fully specified valid creation request for port 1. -/
def c4wReq : AudioPortConfig :=
  { id := 0, portId := 1, flags := some (.output 0)
    format := some { type := .pcm, pcm := .INT_16_BIT }
    channelMask := some (.layoutMask 3), sampleRate := some 48000 }

/-- The seed that `generateDefaultPortConfig` produces for the witness. -/
def c4wSeed : AudioPortConfig :=
  { id := 0, portId := 1, format := some { type := .pcm, pcm := .INT_16_BIT }
    channelMask := some (.layoutMask 3), sampleRate := some 48000
    gain := Option.none, flags := some (.output 0), ext := .mix {} }

/-- The persisted config of the witness call. -/
def c4wOut : AudioPortConfig := { c4wSeed with id := 7 }

/-- The store after the witness call. -/
def c4wState : ModuleState :=
  { c4wStore with config := { c4wStore.config with
      portConfigs := [c4wOut], nextPortId := 8 } }

/-- Witness for C4 at a concrete input: a fully specified valid creation
    request really is persisted with applied = true, and the
    characterization theorem applies to it. -/
theorem setAudioPortConfig_characterization_witness :
    suppliedFieldsValid c4wPort c4wSeed c4wReq = true ∧
    requestFullySpecified c4wReq = true ∧
    setAudioPortConfig c4wStore c4wReq = (Except.ok (c4wOut, true), c4wState) := by
  have h := (setAudioPortConfig_characterization c4wStore c4wReq).2 c4wOut true
    c4wState (by decide)
  obtain ⟨port, existing, seed, htgt, hseed, hz, _⟩ := h
  have heval : requestTarget c4wStore c4wReq = some (c4wPort, Option.none) := by
    decide
  rw [heval] at htgt
  injection htgt with htgt
  injection htgt with hport hex
  subst hport
  subst hex
  have hseedeval : requestSeed c4wPort Option.none = some c4wSeed := by decide
  rw [hseedeval] at hseed
  injection hseed with hseed
  subst hseed
  obtain ⟨hvalid, hfully⟩ := ((hz rfl).1).mp rfl
  exact ⟨hvalid, hfully, by decide⟩

end AudioCore
